import Mathlib

/-!
Verification development for the cashflow-analysis pipeline
(clean_bank_statement.py and auto_classify_transactions.py).

The Python sources are shallowly embedded:
* strings are Lean Strings (the inputs are ASCII bank-statement text;
  Python str.upper / str.strip are implemented directly on the character lists);
* monetary floats are embedded as exact rationals (amounts) or integer cents
  (the canonicalized identity fields), with pandas NaN rendered as Option;
* the compiled re patterns are embedded by a small regex interpreter covering
  exactly the constructs the source patterns use (literals, character classes,
  alternation, repetition, word boundaries, negative lookahead);
* SHA-1 digests are modelled by an arbitrary function parameter
  (hash : String -> String): every identity property proved here holds for
  every such function, in particular for SHA-1.
-/

namespace CFA

/-! ## Basic string helpers (Python str operations on ASCII data) -/

/-- Python tok in s substring test: does hay start with needle. -/
def leadMatch : List Char → List Char → Bool
  | [], _ => true
  | _ :: _, [] => false
  | a :: as, b :: bs => a = b && leadMatch as bs

/-- Python substring containment (needle in hay) on char lists. -/
def containsSub : List Char → List Char → Bool
  | hay, needle =>
    leadMatch needle hay ||
      match hay with
      | [] => false
      | _ :: t => containsSub t needle

/-- Python needle in hay for Strings. -/
def strContains (hay needle : String) : Bool :=
  containsSub hay.data needle.data

/-- ASCII uppercase table (the statement data is ASCII, where Python
str.upper is exactly this map). -/
def UPPER_TABLE : List (Char × Char) :=
  [ ('a', 'A'), ('b', 'B'), ('c', 'C'), ('d', 'D'), ('e', 'E'), ('f', 'F'),
    ('g', 'G'), ('h', 'H'), ('i', 'I'), ('j', 'J'), ('k', 'K'), ('l', 'L'),
    ('m', 'M'), ('n', 'N'), ('o', 'O'), ('p', 'P'), ('q', 'Q'), ('r', 'R'),
    ('s', 'S'), ('t', 'T'), ('u', 'U'), ('v', 'V'), ('w', 'W'), ('x', 'X'),
    ('y', 'Y'), ('z', 'Z') ]

def upChar (c : Char) : Char :=
  ((UPPER_TABLE.find? fun p => p.1 = c).map fun p => p.2).getD c

/-- Python str.upper on ASCII text. -/
def pyUpper (s : String) : String := ⟨s.data.map upChar⟩

/-- Python whitespace (the characters str.strip removes on ASCII text). -/
def isPySpace (c : Char) : Bool :=
  c = ' ' || c = '\t' || c = '\n' || c = '\r' || c = '\x0b' || c = '\x0c'

/-- Python str.strip. -/
def pyStrip (s : String) : String :=
  ⟨((s.data.dropWhile isPySpace).reverse.dropWhile isPySpace).reverse⟩

/-- norm from auto_classify_transactions.py: str(x).upper().strip()
(absent cells never reach the classifier because classify_df casts the
Description column to str first). -/
def pynorm (s : String) : String := pyStrip (pyUpper s)

/-! ## Regex interpreter

Mirrors Python re.search over the constructs used by the source patterns. -/

/-- Character classes appearing in the source patterns. -/
inductive CharCls where
  | digit
  | wordc
  | space
  | lit (c : Char)
  | oneOf (cs : List Char)
  | anyNoNL
deriving Repr, DecidableEq

/-- Python word characters for ASCII input. -/
def isWordChar (c : Char) : Bool := c.isAlpha || c.isDigit || c = '_'

def clsMatch : CharCls → Char → Bool
  | .digit, c => c.isDigit
  | .wordc, c => isWordChar c
  | .space, c => c = ' ' || c = '\t' || c = '\n' || c = '\r' || c = '\x0b' || c = '\x0c'
  | .lit a, c => c = a
  | .oneOf cs, c => cs.contains c
  | .anyNoNL, c => c != '\n'

/-- Regex syntax: just what the source's patterns need. -/
inductive RE where
  | eps
  | cls (k : CharCls)
  | seq (a b : RE)
  | alt (a b : RE)
  | star (r : RE)
  | wordB
  | nla (r : RE)
deriving Repr

def reSize : RE → Nat
  | .eps => 1
  | .cls _ => 1
  | .seq a b => reSize a + reSize b + 1
  | .alt a b => reSize a + reSize b + 1
  | .star r => reSize r + 1
  | .wordB => 1
  | .nla r => reSize r + 1

/-- A word boundary holds between the previous character and the rest. -/
def wordBoundaryAt (p : Option Char) (s : List Char) : Bool :=
  let pw := match p with | none => false | some c => isWordChar c
  let nw := match s with | [] => false | c :: _ => isWordChar c
  pw != nw

/-- Backtracking matcher in continuation style; p is the previous character
(for word boundaries and lookahead), k the continuation.  Fuel only forces
termination; re_search supplies enough fuel for every input. -/
def reM : Nat → RE → Option Char → List Char → (Option Char → List Char → Bool) → Bool
  | 0, _, _, _, _ => false
  | _ + 1, .eps, p, s, k => k p s
  | _ + 1, .cls kc, _, s, k =>
    match s with
    | [] => false
    | c :: rest => clsMatch kc c && k (some c) rest
  | n + 1, .seq a b, p, s, k => reM n a p s (fun p2 s2 => reM n b p2 s2 k)
  | n + 1, .alt a b, p, s, k => reM n a p s k || reM n b p s k
  | n + 1, .star r, p, s, k =>
    k p s ||
      reM n r p s (fun p2 s2 =>
        decide (s2.length < s.length) && reM n (.star r) p2 s2 k)
  | _ + 1, .wordB, p, s, k => wordBoundaryAt p s && k p s
  | n + 1, .nla r, p, s, k => !(reM n r p s (fun _ _ => true)) && k p s

/-- Try to match at each start position, as re.search does. -/
def reSearchFrom (fuel : Nat) (r : RE) : Option Char → List Char → Bool
  | p, [] => reM fuel r p [] (fun _ _ => true)
  | p, c :: t => reM fuel r p (c :: t) (fun _ _ => true) || reSearchFrom fuel r (some c) t

/-- re.search(pattern, text) as a Boolean. -/
def re_search (r : RE) (s : String) : Bool :=
  reSearchFrom ((reSize r + 2) * (s.data.length + 2)) r none s.data

/-! Smart constructors used to transcribe the source pattern strings. -/

def rlit (s : String) : RE :=
  s.data.foldr (fun c acc => RE.seq (RE.cls (CharCls.lit c)) acc) RE.eps

def rseq (l : List RE) : RE := l.foldr RE.seq RE.eps

def wsP : RE := RE.seq (RE.cls CharCls.space) (RE.star (RE.cls CharCls.space))

def wsS : RE := RE.star (RE.cls CharCls.space)

def wb : RE := RE.wordB

def rdigit : RE := RE.cls CharCls.digit

def digitsP : RE := RE.seq rdigit (RE.star rdigit)

def ropt (r : RE) : RE := RE.alt r RE.eps

def repN : Nat → RE → RE
  | 0, _ => RE.eps
  | n + 1, r => RE.seq r (repN n r)

/-- A whole uppercase token delimited by word boundaries. -/
def wbTok (s : String) : RE := rseq [wb, rlit s, wb]

/-- Two word-boundary tokens separated by one-or-more whitespace. -/
def wbTok2 (a b : String) : RE := rseq [wb, rlit a, wsP, rlit b, wb]

/-- Three word-boundary tokens separated by whitespace. -/
def wbTok3 (a b c : String) : RE := rseq [wb, rlit a, wsP, rlit b, wsP, rlit c, wb]

/-! ## Configuration tables from auto_classify_transactions.py -/

def SALARY_EMPLOYERS : List String :=
  ["HP", "MICROSOFT", "ABBOTT", "CHANGI AIRPORT GROUP", "KERING"]

def INSURERS : List String :=
  ["AIA", "PRUDENTIAL", "GREAT EASTERN", "NTUC", "MANULIFE", "AVIVA", "AXA", "HSBC LIFE"]

def SELF_ENTITIES : List String :=
  ["WEILUN", "SAM", "SAMANTHA", "SAMANTHA SEAH", "TRUST BANK", "3493939244", "3491284038"]

/-- CC_ISSUER_PATTERNS, in dict insertion order. -/
def CC_ISSUER_PATTERNS : List (String × List RE) :=
  [ ("CITI", [wbTok "CITI"]),
    ("SCB", [wbTok "SCB", wbTok2 "STANDARD" "CHARTERED"]),
    ("HSBC", [wbTok "HSBC"]),
    ("UOB", [wbTok "UOB"]),
    ("OCBC", [wbTok "OCBC"]),
    ("AMEX", [wbTok "AMEX", wbTok2 "AMERICAN" "EXPRESS"]) ]

/-- RAILS, in dict insertion order. -/
def RAILS : List (String × RE) :=
  [ ("GIRO", wbTok "GIRO"),
    ("FAST", wbTok "FAST"),
    ("PAYNOW", wbTok "PAYNOW"),
    ("NETS", wbTok "NETS"),
    ("ATM", RE.alt (wbTok "ATM") (wbTok2 "CASH" "WITHDRAWAL")),
    ("CHEQUE", wbTok "CHEQUE"),
    ("CARD", RE.alt (wbTok2 "BILL" "PAYMENT")
      (RE.alt (rseq [wb, rlit "MBK-", RE.seq (RE.cls CharCls.wordc) (RE.star (RE.cls CharCls.wordc)), wsP, rlit "CC", wb])
        (RE.alt (wbTok2 "UOB" "CARDS")
          (rseq [wb, rlit "CARD", ropt (rlit "S"), wb])))) ]

/-- MANAGERIAL_DERIVE_MAP: fixed economic to managerial lookup table. -/
def MANAGERIAL_DERIVE_MAP : List ((String × String) × (String × String)) :=
  [ (("NON-CASH", "BALANCE_BF"), ("NON-CASH", "BALANCE_BF")),
    (("INCOME", "SALARY"), ("INCOME", "SALARY")),
    (("INCOME", "INTEREST"), ("INCOME", "INTEREST")),
    (("TRANSFER", "INTERNAL_TRANSFER"), ("TRANSFER", "INTERNAL_TRANSFER")),
    (("HOUSING", "PROPERTY_PURCHASE"), ("HOUSING", "PROPERTY_PURCHASE")),
    (("TAXES", "IRAS_TAX"), ("TAXES", "IRAS_TAX")),
    (("DEBT_SERVICE", "MORTGAGE_PAYMENT"), ("DEBT_SERVICE", "MORTGAGE_PAYMENT")),
    (("DEBT_SERVICE", "CAR_LOAN_PAYMENT"), ("DEBT_SERVICE", "CAR_LOAN_PAYMENT")),
    (("HOUSING", "RENOVATION"), ("HOUSING", "RENOVATION")),
    (("HOUSING", "HOA_CONDO_FEES"), ("HOUSING", "HOA_CONDO_FEES")),
    (("INCOME", "INSURANCE_PAYOUT"), ("INCOME", "INSURANCE_PAYOUT")),
    (("INSURANCE", "PREMIUM"), ("INSURANCE", "PREMIUM")),
    (("DEBT_SERVICE", "CREDIT_CARD_SETTLEMENT_CITI"), ("LIFESTYLE", "CREDIT_CARD_SPEND_PROXY")),
    (("DEBT_SERVICE", "CREDIT_CARD_SETTLEMENT_SCB"), ("LIFESTYLE", "CREDIT_CARD_SPEND_PROXY")),
    (("DEBT_SERVICE", "CREDIT_CARD_SETTLEMENT_HSBC"), ("LIFESTYLE", "CREDIT_CARD_SPEND_PROXY")),
    (("DEBT_SERVICE", "CREDIT_CARD_SETTLEMENT_UOB"), ("LIFESTYLE", "CREDIT_CARD_SPEND_PROXY")),
    (("DEBT_SERVICE", "CREDIT_CARD_SETTLEMENT_OCBC"), ("LIFESTYLE", "CREDIT_CARD_SPEND_PROXY")),
    (("DEBT_SERVICE", "CREDIT_CARD_SETTLEMENT_AMEX"), ("LIFESTYLE", "CREDIT_CARD_SPEND_PROXY")),
    (("INCOME", "OTHER_INCOME"), ("INCOME", "OTHER_INCOME")),
    (("LIFESTYLE", "DISCRETIONARY"), ("LIFESTYLE", "DISCRETIONARY")),
    (("NON-CASH", "ACCOUNTING_ADJUSTMENT"), ("NON-CASH", "ACCOUNTING_ADJUSTMENT")),
    (("SAVINGS_INVESTING", "SRS_CONTRIBUTION"), ("SAVINGS", "SRS_CONTRIBUTION")),
    (("SAVINGS_INVESTING", "CPF_VOLUNTARY"), ("SAVINGS", "CPF_VOLUNTARY")),
    (("HOUSING", "TOWN_COUNCIL_FEES"), ("HOUSING", "TOWN_COUNCIL_FEES")),
    (("INCOME", "GOVT_PAYOUT"), ("INCOME", "GOVT_PAYOUT")),
    (("LIFESTYLE", "CASH_WITHDRAWAL"), ("LIFESTYLE", "CASH_WITHDRAWAL")),
    (("LIFESTYLE", "TELECOM"), ("LIFESTYLE", "TELECOM")) ]

/-- dict.get(key, default) over the managerial derive map. -/
def mgrDeriveGet (key default : String × String) : String × String :=
  match MANAGERIAL_DERIVE_MAP.find? (fun p => p.1 = key) with
  | some p => p.2
  | none => default

/-! ## Semantic pattern tables (the compiled P_xxx lists) -/

def BALANCE_PATTERNS : List RE := [rseq [wb, rlit "BALANCE", wsP, rlit "B/F", wb]]

def INTEREST_PATTERNS : List RE := [wbTok2 "INTEREST" "CREDIT", wbTok2 "BONUS" "INTEREST"]

def SALARY_PATTERNS : List RE := [wbTok2 "SALARY" "PAYMENT", wbTok2 "GIRO" "SALA"]

def TAX_PATTERNS : List RE :=
  [wbTok "IRAS", wbTok2 "INCOME" "TAX", wbTok2 "PROPERTY" "TAX", wbTok "ITX", wbTok "PTXP"]

def MORTGAGE_PATTERNS : List RE :=
  [ rseq [wb, rlit "TRF.", wsS, rlit "WD.", wsS, rlit "LOANS", wb],
    rseq [wb, rlit "WD.", wsS, rlit "LOANS", wb],
    wbTok "MORTGAGE",
    wbTok2 "HOUSING" "LOAN" ]

def MCST_PATTERNS : List RE := [wbTok "MCST", wbTok2 "MANAGEMENT" "CORP"]

def PROPERTY_DOWNPAYMENT_PATTERNS : List RE :=
  [ wbTok2 "CHEQUE" "WITHDRAWAL",
    wbTok3 "DR" "CO" "CHARGES",
    rseq [wb, rlit "CO-", repN 6 rdigit, rlit "-", repN 3 rdigit, wb] ]

def RENOVATION_PATTERNS : List RE :=
  [wbTok2 "BUILD" "BUILT", wbTok "RENOV", wbTok "CONTRACTOR", wbTok "CARPENTRY"]

def CAR_FINANCE_PATTERNS : List RE :=
  [ wbTok3 "HONG" "LEONG" "FINANCE",
    rseq [wb, rlit "HLF-", digitsP, wb] ]

def TRANSFER_PATTERNS : List RE :=
  [wbTok2 "FUNDS" "TRF", wbTok "TRANSFER", wbTok2 "OTHR" "TRANSFER"]

def TRUST_BANK_INTERNAL_PATTERNS : List RE :=
  [ rseq [wb, rlit "TRUST", wsP, rlit "BANK", wb, RE.star (RE.cls CharCls.anyNoNL),
      wb, rlit "OTHR", wsP, rlit "TRANSFER", wb],
    rseq [wb, rlit "OTHR", wsP, rlit "TRANSFER", wb, RE.star (RE.cls CharCls.anyNoNL),
      wb, rlit "TRUST", wsP, rlit "BANK", wb] ]

def INS_INFLOW_MARKERS : List RE :=
  [wbTok2 "INWARD" "CR", rseq [wb, rlit "CR", wsS, rlit "-", wsS, rlit "GIRO", wb]]

def INS_OUTFLOW_MARKERS : List RE :=
  [wbTok2 "INWARD" "DR", rseq [wb, rlit "DR", wsS, rlit "-", wsS, rlit "GIRO", wb]]

def SRS_PATTERNS : List RE :=
  [wbTok2 "SRS" "CONT", rlit "(SRS)", wbTok2 "SRS" "CONTRIBUTION"]

def CPF_PATTERNS : List RE :=
  [ wbTok3 "CENTRAL" "PROVIDENT" "FU",
    rseq [wb, rlit "CPF", wsP, rlit "TOP", ropt (RE.cls (CharCls.oneOf ['-', ' '])), rlit "UP", wb],
    wbTok2 "CPF" "CONTRIBUTION" ]

def TOWN_COUNCIL_PATTERNS : List RE :=
  [rlit "TOWNCOUNCIL", wbTok2 "TOWN" "COUNCIL", wbTok2 "TC" "S&CC"]

def GOVT_PAYOUT_PATTERNS : List RE :=
  [ rseq [wb, rlit "GOV", ropt (rlit "T"), wsP, rlit "PAYOUT", wb],
    wbTok2 "GOV" "GOV",
    wbTok2 "GST" "VOUCHER",
    wbTok2 "CDC" "VOUCHER" ]

def ATM_WITHDRAWAL_PATTERNS : List RE :=
  [ wbTok2 "CASH" "WITHDRAWAL",
    wbTok2 "ATM" "WITHDRAWAL",
    wbTok2 "CASH" "WITHDRAWAL-ATM",
    wbTok2 "CASH" "WITHDRAWAL-SATM" ]

def TELECOM_PATTERNS : List RE :=
  [ wbTok "SINGTEL",
    wbTok "STARHUB",
    wbTok2 "M1" "LIMITED",
    rseq [wb, rlit "M1", wb, RE.nla (RE.seq wsS rdigit)],
    wbTok2 "SIMBA" "TELECOM",
    wbTok2 "TPG" "TELECOM" ]

def TRANSIT_PATTERNS : List RE :=
  [ wbTok "TRANSIT",
    wbTok "SMRT",
    wbTok2 "SBS" "TRANSIT",
    rseq [wb, rlit "EZ", ropt (rlit "-"), rlit "LINK", wb],
    wbTok2 "CONSUMER" "TRANSIT" ]

def BANK_FEE_PATTERNS : List RE :=
  [ wbTok2 "CHEQUE" "CHARGES",
    wbTok2 "BANK" "FEE",
    wbTok2 "SERVICE" "CHARGE",
    wbTok2 "MONTHLY" "FEE" ]

/-! ## Classifier helpers -/

/-- has_any(text, patterns). -/
def has_any (text : String) (patterns : List RE) : Bool :=
  patterns.any fun p => re_search p text

/-- infer_bank_rail: first rail whose pattern matches, else OTHER. -/
def infer_bank_rail (desc_u : String) : String :=
  match RAILS.find? (fun pr => re_search pr.2 desc_u) with
  | some pr => pr.1
  | none => "OTHER"

/-- detect_cc_issuer: first issuer with a matching pattern. -/
def detect_cc_issuer (desc_u : String) : Option String :=
  (CC_ISSUER_PATTERNS.find? (fun pr => pr.2.any fun p => re_search p desc_u)).map (fun pr => pr.1)

/-- contains_any_token(desc_u, tokens). -/
def contains_any_token (desc_u : String) (tokens : List String) : Bool :=
  tokens.any fun t => strContains desc_u (pyUpper t)

/-! ## ClassResult and classify_row -/

/-- The frozen dataclass ClassResult.  The taxonomy dictionary lookups of the
source (FLOW_NATURE, CFS, EP_L1, ASSET_CTX, STABILITY, EVENT_TAG) are constant
tables; their string values are inlined here. -/
structure ClassResult where
  record_type : String
  flow_nature : String
  cashflow_statement : String
  econ_l1 : String
  econ_l2 : String
  asset_context : String
  stability_class : String
  baseline_eligible : Bool
  event_tag : String
  bank_rail : String
  rule_id : String
  rule_explanation : String
  managerial_l1 : String
  managerial_l2 : String
  is_cc_settlement : Bool
deriving Repr, DecidableEq

/-- The rules of the priority chain, in evaluation order.  (R14/R15/R16 are
the fallbacks evaluated after R24, exactly as in the source.) -/
inductive Rule where
  | r00 | r01 | r02 | r03 | r04 | r05 | r06 | r07 | r08 | r09 | r10 | r11
  | r12 | r13 | r17 | r18 | r19 | r20 | r21 | r22 | r23 | r24 | r14 | r15 | r16
deriving Repr, DecidableEq

/-- The guard chain of classify_row: the source's if/elif conditions in
order, over the normalized description d, the signed amount, and the inferred
rail.  The insurance block (rules 10/11) is nested in the source (an outer
insurer test whose unmatched cases fall through); it is flattened here into
two equivalent guarded branches. -/
def first_rule (d : String) (amount : ℚ) : Rule :=
  let rail := infer_bank_rail d
  if has_any d BALANCE_PATTERNS then .r00
  else if 0 < amount ∧ (has_any d SALARY_PATTERNS ∨ contains_any_token d SALARY_EMPLOYERS) then .r01
  else if 0 < amount ∧ has_any d INTEREST_PATTERNS then .r02
  else if has_any d TRUST_BANK_INTERNAL_PATTERNS then .r03
  else if amount < 0 ∧ has_any d PROPERTY_DOWNPAYMENT_PATTERNS then .r04
  else if amount < 0 ∧ has_any d TAX_PATTERNS then .r05
  else if amount < 0 ∧ has_any d MORTGAGE_PATTERNS then .r06
  else if amount < 0 ∧ has_any d CAR_FINANCE_PATTERNS then .r07
  else if amount < 0 ∧ has_any d RENOVATION_PATTERNS then .r08
  else if amount < 0 ∧ has_any d MCST_PATTERNS then .r09
  else if contains_any_token d INSURERS ∧ 0 < amount ∧ has_any d INS_INFLOW_MARKERS then .r10
  else if contains_any_token d INSURERS ∧ amount < 0 then .r11
  else if amount < 0 ∧ (detect_cc_issuer d).isSome ∧
      (strContains d "BILL PAYMENT" ∨ strContains d "CC" ∨ strContains d "CARDS") then .r12
  else if (has_any d TRANSFER_PATTERNS ∨ rail = "FAST" ∨ rail = "PAYNOW" ∨ rail = "GIRO") ∧
      contains_any_token d SELF_ENTITIES then .r13
  else if amount < 0 ∧ has_any d SRS_PATTERNS then .r17
  else if amount < 0 ∧ has_any d CPF_PATTERNS then .r18
  else if amount < 0 ∧ has_any d TOWN_COUNCIL_PATTERNS then .r19
  else if 0 < amount ∧ has_any d GOVT_PAYOUT_PATTERNS then .r20
  else if amount < 0 ∧ has_any d ATM_WITHDRAWAL_PATTERNS then .r21
  else if amount < 0 ∧ has_any d TELECOM_PATTERNS then .r22
  else if amount < 0 ∧ has_any d TRANSIT_PATTERNS then .r23
  else if amount < 0 ∧ has_any d BANK_FEE_PATTERNS then .r24
  else if 0 < amount then .r14
  else if amount < 0 then .r15
  else .r16

/-- The ClassResult literal each source rule returns, verbatim.  The taxonomy
dictionary lookups (FLOW_NATURE, CFS, EP_L1, ASSET_CTX, STABILITY, EVENT_TAG)
are constant tables; their string values are inlined. -/
def rule_result (desc : String) (_amount : ℚ) : Rule → ClassResult :=
  fun rule =>
  let d := pynorm desc
  let rail := infer_bank_rail d
  match rule with
  | .r00 =>
    { record_type := "SUMMARY", flow_nature := "NON-CASH", cashflow_statement := "NON-CASH",
      econ_l1 := "NON-CASH", econ_l2 := "BALANCE_BF", asset_context := "UNKNOWN",
      stability_class := "ONE_OFF", baseline_eligible := false, event_tag := "NONE",
      bank_rail := rail, rule_id := "R00_BALANCE_BF",
      rule_explanation := "Balance B/F is a non-cash summary line; excluded from cashflow analytics.",
      managerial_l1 := "NON-CASH", managerial_l2 := "BALANCE_BF", is_cc_settlement := false }
  | .r01 =>
    { record_type := "TRANSACTION", flow_nature := "INCOME", cashflow_statement := "OPERATING",
      econ_l1 := "INCOME", econ_l2 := "SALARY", asset_context := "GENERAL",
      stability_class := "STRUCTURAL_RECURRING", baseline_eligible := true, event_tag := "NONE",
      bank_rail := rail, rule_id := "R01_SALARY",
      rule_explanation := "Detected salary income (employer token: " ++
        ((SALARY_EMPLOYERS.find? fun e => strContains d (pyUpper e)).getD "EMPLOYER") ++
        "). Income can never be classified as lifestyle.",
      managerial_l1 := "INCOME", managerial_l2 := "SALARY", is_cc_settlement := false }
  | .r02 =>
    { record_type := "TRANSACTION", flow_nature := "INCOME", cashflow_statement := "OPERATING",
      econ_l1 := "INCOME", econ_l2 := "INTEREST", asset_context := "FINANCIAL",
      stability_class := "SEMI_RECURRING", baseline_eligible := true, event_tag := "NONE",
      bank_rail := rail, rule_id := "R02_INTEREST",
      rule_explanation := "Interest credited (bank/bonus interest). Operating income.",
      managerial_l1 := "INCOME", managerial_l2 := "INTEREST", is_cc_settlement := false }
  | .r03 =>
    { record_type := "TRANSACTION", flow_nature := "TRANSFER", cashflow_statement := "TRANSFER",
      econ_l1 := "TRANSFER", econ_l2 := "INTERNAL_TRANSFER", asset_context := "GENERAL",
      stability_class := "STRUCTURAL_RECURRING", baseline_eligible := false, event_tag := "NONE",
      bank_rail := rail, rule_id := "R03_TRUST_INTERNAL",
      rule_explanation := "Trust Bank OTHR Transfer is internal inter-bank fund reallocation; neutralized as Transfer.",
      managerial_l1 := "TRANSFER", managerial_l2 := "INTERNAL_TRANSFER", is_cc_settlement := false }
  | .r04 =>
    { record_type := "TRANSACTION", flow_nature := "EXPENSE", cashflow_statement := "INVESTING",
      econ_l1 := "HOUSING", econ_l2 := "PROPERTY_PURCHASE", asset_context := "PROPERTY",
      stability_class := "ONE_OFF", baseline_eligible := false, event_tag := "PROPERTY_ACQ",
      bank_rail := rail, rule_id := "R04_PROPERTY_DOWNPAYMENT",
      rule_explanation := "Cheque/DR CO CHARGES treated as property downpayment (cash -> property asset). Investing cashflow.",
      managerial_l1 := "HOUSING", managerial_l2 := "PROPERTY_PURCHASE", is_cc_settlement := false }
  | .r05 =>
    { record_type := "TRANSACTION", flow_nature := "EXPENSE", cashflow_statement := "OPERATING",
      econ_l1 := "TAXES", econ_l2 := "IRAS_TAX", asset_context := "GENERAL",
      stability_class := "SEMI_RECURRING", baseline_eligible := true, event_tag := "TAX_EVENT",
      bank_rail := rail, rule_id := "R05_TAX",
      rule_explanation := "IRAS-related tax payment. Operating cashflow.",
      managerial_l1 := "TAXES", managerial_l2 := "IRAS_TAX", is_cc_settlement := false }
  | .r06 =>
    { record_type := "TRANSACTION", flow_nature := "EXPENSE", cashflow_statement := "FINANCING",
      econ_l1 := "DEBT_SERVICE", econ_l2 := "MORTGAGE_PAYMENT", asset_context := "PROPERTY",
      stability_class := "STRUCTURAL_RECURRING", baseline_eligible := true, event_tag := "NONE",
      bank_rail := rail, rule_id := "R06_MORTGAGE",
      rule_explanation := "Detected mortgage/housing loan payment. Financing cashflow (debt service).",
      managerial_l1 := "DEBT_SERVICE", managerial_l2 := "MORTGAGE_PAYMENT", is_cc_settlement := false }
  | .r07 =>
    { record_type := "TRANSACTION", flow_nature := "EXPENSE", cashflow_statement := "FINANCING",
      econ_l1 := "DEBT_SERVICE", econ_l2 := "CAR_LOAN_PAYMENT", asset_context := "CAR",
      stability_class := "STRUCTURAL_RECURRING", baseline_eligible := true, event_tag := "NONE",
      bank_rail := rail, rule_id := "R07_CAR_LOAN",
      rule_explanation := "Detected car loan payment. Financing cashflow (debt service).",
      managerial_l1 := "DEBT_SERVICE", managerial_l2 := "CAR_LOAN_PAYMENT", is_cc_settlement := false }
  | .r08 =>
    { record_type := "TRANSACTION", flow_nature := "EXPENSE", cashflow_statement := "INVESTING",
      econ_l1 := "HOUSING", econ_l2 := "RENOVATION", asset_context := "PROPERTY",
      stability_class := "ONE_OFF", baseline_eligible := false, event_tag := "RENOVATION",
      bank_rail := rail, rule_id := "R08_RENOVATION",
      rule_explanation := "Renovation/capex improvement detected. Investing cashflow (property).",
      managerial_l1 := "HOUSING", managerial_l2 := "RENOVATION", is_cc_settlement := false }
  | .r09 =>
    { record_type := "TRANSACTION", flow_nature := "EXPENSE", cashflow_statement := "OPERATING",
      econ_l1 := "HOUSING", econ_l2 := "HOA_CONDO_FEES", asset_context := "PROPERTY",
      stability_class := "SEMI_RECURRING", baseline_eligible := true, event_tag := "NONE",
      bank_rail := rail, rule_id := "R09_MCST",
      rule_explanation := "MCST/condo maintenance fees are operating housing costs (not lifestyle).",
      managerial_l1 := "HOUSING", managerial_l2 := "HOA_CONDO_FEES", is_cc_settlement := false }
  | .r10 =>
    { record_type := "TRANSACTION", flow_nature := "INCOME", cashflow_statement := "OPERATING",
      econ_l1 := "INCOME", econ_l2 := "INSURANCE_PAYOUT", asset_context := "GENERAL",
      stability_class := "VARIABLE", baseline_eligible := false, event_tag := "NONE",
      bank_rail := rail, rule_id := "R10_INS_IN",
      rule_explanation := "Insurer-related inflow (refund/payout). Treated as operating income.",
      managerial_l1 := "INCOME", managerial_l2 := "INSURANCE_PAYOUT", is_cc_settlement := false }
  | .r11 =>
    { record_type := "TRANSACTION", flow_nature := "EXPENSE", cashflow_statement := "OPERATING",
      econ_l1 := "INSURANCE", econ_l2 := "PREMIUM", asset_context := "GENERAL",
      stability_class := "STRUCTURAL_RECURRING", baseline_eligible := true, event_tag := "NONE",
      bank_rail := rail, rule_id := "R11_INS_OUT",
      rule_explanation := "Insurer-related outflow treated as insurance premium (operating).",
      managerial_l1 := "INSURANCE", managerial_l2 := "PREMIUM", is_cc_settlement := false }
  | .r12 =>
    { record_type := "TRANSACTION", flow_nature := "EXPENSE", cashflow_statement := "FINANCING",
      econ_l1 := "DEBT_SERVICE",
      econ_l2 := "CREDIT_CARD_SETTLEMENT_" ++ (detect_cc_issuer d).getD "",
      asset_context := "GENERAL", stability_class := "SEMI_RECURRING",
      baseline_eligible := true, event_tag := "NONE",
      bank_rail := "CARD", rule_id := "R12_CC_SETTLEMENT",
      rule_explanation := "Credit card settlement is liability repayment; classify as financing (debt service).",
      managerial_l1 := "LIFESTYLE", managerial_l2 := "CREDIT_CARD_SPEND_PROXY", is_cc_settlement := true }
  | .r13 =>
    { record_type := "TRANSACTION", flow_nature := "TRANSFER", cashflow_statement := "TRANSFER",
      econ_l1 := "TRANSFER", econ_l2 := "INTERNAL_TRANSFER", asset_context := "GENERAL",
      stability_class := "STRUCTURAL_RECURRING", baseline_eligible := false, event_tag := "NONE",
      bank_rail := rail, rule_id := "R13_INTERNAL_TRANSFER",
      rule_explanation := "Detected self-controlled transfer (ownership unchanged). Neutralized as Transfer.",
      managerial_l1 := "TRANSFER", managerial_l2 := "INTERNAL_TRANSFER", is_cc_settlement := false }
  | .r17 =>
    { record_type := "TRANSACTION", flow_nature := "EXPENSE", cashflow_statement := "INVESTING",
      econ_l1 := "SAVINGS_INVESTING", econ_l2 := "SRS_CONTRIBUTION", asset_context := "FINANCIAL",
      stability_class := "SEMI_RECURRING", baseline_eligible := true, event_tag := "NONE",
      bank_rail := rail, rule_id := "R17_SRS_CONTRIBUTION",
      rule_explanation := "SRS contribution detected. Investing cashflow (retirement savings).",
      managerial_l1 := "SAVINGS", managerial_l2 := "SRS_CONTRIBUTION", is_cc_settlement := false }
  | .r18 =>
    { record_type := "TRANSACTION", flow_nature := "EXPENSE", cashflow_statement := "INVESTING",
      econ_l1 := "SAVINGS_INVESTING", econ_l2 := "CPF_VOLUNTARY", asset_context := "FINANCIAL",
      stability_class := "SEMI_RECURRING", baseline_eligible := true, event_tag := "NONE",
      bank_rail := rail, rule_id := "R18_CPF_VOLUNTARY",
      rule_explanation := "Voluntary CPF top-up detected. Investing cashflow (retirement savings).",
      managerial_l1 := "SAVINGS", managerial_l2 := "CPF_VOLUNTARY", is_cc_settlement := false }
  | .r19 =>
    { record_type := "TRANSACTION", flow_nature := "EXPENSE", cashflow_statement := "OPERATING",
      econ_l1 := "HOUSING", econ_l2 := "TOWN_COUNCIL_FEES", asset_context := "PROPERTY",
      stability_class := "STRUCTURAL_RECURRING", baseline_eligible := true, event_tag := "NONE",
      bank_rail := rail, rule_id := "R19_TOWN_COUNCIL",
      rule_explanation := "Town Council / conservancy fees detected. Operating housing expense.",
      managerial_l1 := "HOUSING", managerial_l2 := "TOWN_COUNCIL_FEES", is_cc_settlement := false }
  | .r20 =>
    { record_type := "TRANSACTION", flow_nature := "INCOME", cashflow_statement := "OPERATING",
      econ_l1 := "INCOME", econ_l2 := "GOVT_PAYOUT", asset_context := "GENERAL",
      stability_class := "VARIABLE", baseline_eligible := false, event_tag := "NONE",
      bank_rail := rail, rule_id := "R20_GOVT_PAYOUT",
      rule_explanation := "Government payout/grant detected. Operating income (non-baseline).",
      managerial_l1 := "INCOME", managerial_l2 := "GOVT_PAYOUT", is_cc_settlement := false }
  | .r21 =>
    { record_type := "TRANSACTION", flow_nature := "EXPENSE", cashflow_statement := "OPERATING",
      econ_l1 := "LIFESTYLE", econ_l2 := "CASH_WITHDRAWAL", asset_context := "GENERAL",
      stability_class := "VARIABLE", baseline_eligible := false, event_tag := "NONE",
      bank_rail := "ATM", rule_id := "R21_ATM_WITHDRAWAL",
      rule_explanation := "ATM cash withdrawal detected. Operating lifestyle expense (cash-based spending).",
      managerial_l1 := "LIFESTYLE", managerial_l2 := "CASH_WITHDRAWAL", is_cc_settlement := false }
  | .r22 =>
    { record_type := "TRANSACTION", flow_nature := "EXPENSE", cashflow_statement := "OPERATING",
      econ_l1 := "LIFESTYLE", econ_l2 := "TELECOM", asset_context := "GENERAL",
      stability_class := "STRUCTURAL_RECURRING", baseline_eligible := true, event_tag := "NONE",
      bank_rail := rail, rule_id := "R22_TELECOM",
      rule_explanation := "Telecom bill detected. Operating lifestyle expense (utilities).",
      managerial_l1 := "LIFESTYLE", managerial_l2 := "TELECOM", is_cc_settlement := false }
  | .r23 =>
    { record_type := "TRANSACTION", flow_nature := "EXPENSE", cashflow_statement := "OPERATING",
      econ_l1 := "LIFESTYLE", econ_l2 := "TRANSIT", asset_context := "GENERAL",
      stability_class := "STRUCTURAL_RECURRING", baseline_eligible := true, event_tag := "NONE",
      bank_rail := rail, rule_id := "R23_TRANSIT",
      rule_explanation := "Public transit expense detected. Operating lifestyle expense.",
      managerial_l1 := "LIFESTYLE", managerial_l2 := "TRANSIT", is_cc_settlement := false }
  | .r24 =>
    { record_type := "TRANSACTION", flow_nature := "EXPENSE", cashflow_statement := "OPERATING",
      econ_l1 := "FEES", econ_l2 := "BANK_FEES", asset_context := "GENERAL",
      stability_class := "STRUCTURAL_RECURRING", baseline_eligible := true, event_tag := "NONE",
      bank_rail := rail, rule_id := "R24_BANK_FEES",
      rule_explanation := "Bank fees/charges detected. Operating fees expense.",
      managerial_l1 := "FEES", managerial_l2 := "BANK_FEES", is_cc_settlement := false }
  | .r14 =>
    { record_type := "TRANSACTION", flow_nature := "INCOME", cashflow_statement := "OPERATING",
      econ_l1 := "INCOME", econ_l2 := "OTHER_INCOME", asset_context := "GENERAL",
      stability_class := "VARIABLE", baseline_eligible := false, event_tag := "NONE",
      bank_rail := rail, rule_id := "R14_OTHER_INCOME",
      rule_explanation := "Unmapped inflow treated as other operating income (review later if needed).",
      managerial_l1 := "INCOME", managerial_l2 := "OTHER_INCOME", is_cc_settlement := false }
  | .r15 =>
    { record_type := "TRANSACTION", flow_nature := "EXPENSE", cashflow_statement := "OPERATING",
      econ_l1 := "LIFESTYLE", econ_l2 := "DISCRETIONARY", asset_context := "GENERAL",
      stability_class := "VARIABLE", baseline_eligible := false, event_tag := "NONE",
      bank_rail := rail, rule_id := "R15_GENERIC_OUTFLOW",
      rule_explanation := "Unmapped outflow treated as lifestyle discretionary (conservative fallback).",
      managerial_l1 := "LIFESTYLE", managerial_l2 := "DISCRETIONARY", is_cc_settlement := false }
  | .r16 =>
    { record_type := "TRANSACTION", flow_nature := "NON-CASH", cashflow_statement := "NON-CASH",
      econ_l1 := "NON-CASH", econ_l2 := "ACCOUNTING_ADJUSTMENT", asset_context := "UNKNOWN",
      stability_class := "ONE_OFF", baseline_eligible := false, event_tag := "NONE",
      bank_rail := rail, rule_id := "R16_ZERO_ADJ",
      rule_explanation := "Zero-amount row treated as non-cash adjustment (should be rare).",
      managerial_l1 := "NON-CASH", managerial_l2 := "ACCOUNTING_ADJUSTMENT", is_cc_settlement := false }

/-- classify_row(desc, amount): the single-pass, priority-ordered rule chain.
The source's if/elif chain is decomposed into the guard chain (first_rule)
and the per-rule result literal (rule_result); composing them reproduces the
source control flow exactly: the first guard to hold yields its literal. -/
def classify_row (desc : String) (amount : ℚ) : ClassResult :=
  rule_result desc amount (first_rule (pynorm desc) amount)

/-! ## Identity assignment (clean_bank_statement.py / auto_classify_transactions.py)

A transaction row is embedded by its canonicalized content fields: the
canonical date string produced by canon_date (empty when the cell is absent),
the whitespace-collapsed YearMonth string, the canonical description and
source file (collapse_ws + upper), and the numeric columns in integer cents
(statement amounts are exact multiples of 0.01, so the canonicalization
str(int(round(v * 100))) is the cents integer and the float ordering used by
the tie-break sort coincides with the cents ordering).  A pandas NaN numeric
cell is Option.none.  SHA-1 is an arbitrary parameter hash. -/

structure TxnRow where
  date : String
  year_month : String
  amount_cents : ℤ
  desc : String
  source : String
  balance : Option ℤ
  withdrawals : Option ℤ
  deposits : Option ℤ
deriving Repr, DecidableEq

/-- The date component of the keys: canon date, with empty replaced by NA. -/
def date_key (r : TxnRow) : String := if r.date = "" then "NA" else r.date

/-- base_key = Date | YearMonth | Amount_cents | Description | SourceFile. -/
def base_key (r : TxnRow) : String :=
  date_key r ++ "|" ++ r.year_month ++ "|" ++ toString r.amount_cents ++ "|" ++
    r.desc ++ "|" ++ r.source

/-- A numeric cell rendered for the fingerprint: cents, or NaN when absent. -/
def cents_str : Option ℤ → String
  | none => "NaN"
  | some v => toString v

/-- The key hashed by _mk_row_fingerprint: base-key fields plus
Balance | Withdrawals | Deposits. -/
def fingerprint_key (r : TxnRow) : String :=
  date_key r ++ "|" ++ r.year_month ++ "|" ++ toString r.amount_cents ++ "|" ++
    r.desc ++ "|" ++ r.source ++ "|" ++ cents_str r.balance ++ "|" ++
    cents_str r.withdrawals ++ "|" ++ cents_str r.deposits

/-- _mk_row_fingerprint: the digest of the fingerprint key. -/
def row_fingerprint (hash : String → String) (r : TxnRow) : String :=
  hash (fingerprint_key r)

/-- The (base_key, fingerprint) pairs whose collisions the source treats as
indistinguishable duplicates. -/
def dup_pairs (hash : String → String) (rows : List TxnRow) : List (String × String) :=
  rows.map fun r => (base_key r, row_fingerprint hash r)

/-! The tie-break sort of _generate_occurrence_indices orders rows by
(_base_key, Balance, Withdrawals, Deposits, Amount, _row_fingerprint) with
missing values last; pandas mergesort is stable, which is the same as breaking
the remaining ties by the original position.  The sort key is embedded as a
lexicographic tuple; strings are compared as their character lists (Python
string comparison is code-point lexicographic). -/

/-- A numeric column entry ordered ascending with NaN last. -/
abbrev NaKey := Lex (Bool × ℤ)

def na_key : Option ℤ → NaKey
  | none => toLex (true, 0)
  | some v => toLex (false, v)

abbrev SortKey :=
  Lex (List Char × Lex (NaKey × Lex (NaKey × Lex (NaKey × Lex (ℤ × List Char)))))

def sort_key (hash : String → String) (r : TxnRow) : SortKey :=
  toLex ((base_key r).data,
    toLex (na_key r.balance,
      toLex (na_key r.withdrawals,
        toLex (na_key r.deposits,
          toLex (r.amount_cents, (row_fingerprint hash r).data)))))

/-- Key of a positioned row: content key, then original position (stability
of the mergesort). -/
abbrev EntryKey := Lex (SortKey × ℕ)

def entry_key (hash : String → String) (e : ℕ × TxnRow) : EntryKey :=
  toLex (sort_key hash e.2, e.1)

def entry_le (hash : String → String) (a b : ℕ × TxnRow) : Prop :=
  entry_key hash a ≤ entry_key hash b

instance (hash : String → String) : DecidableRel (entry_le hash) :=
  fun a b => inferInstanceAs (Decidable (entry_key hash a ≤ entry_key hash b))

instance (hash : String → String) : IsTotal (ℕ × TxnRow) (entry_le hash) :=
  ⟨fun a b => le_total (entry_key hash a) (entry_key hash b)⟩

instance (hash : String → String) : IsTrans (ℕ × TxnRow) (entry_le hash) :=
  ⟨fun _ _ _ hab hbc => le_trans hab hbc⟩

/-- The stable tie-break sort of the positioned rows. -/
def sorted_entries (hash : String → String) (rows : List TxnRow) : List (ℕ × TxnRow) :=
  List.insertionSort (entry_le hash) rows.enum

/-- The occurrence index of one positioned row: one plus the number of
rows of the same base key placed before it by the sort (the groupby cumcount
of the sorted frame, read back in original row order). -/
def occ_of (hash : String → String) (rows : List TxnRow) (e : ℕ × TxnRow) : ℕ :=
  ((sorted_entries hash rows).takeWhile fun f => f ≠ e).countP
    (fun f => base_key f.2 = base_key e.2) + 1

/-- _generate_occurrence_indices: reject indistinguishable duplicates
(same base key and same fingerprint), otherwise the occurrence indices in
original row order.  The source error message is abbreviated to its head
line. -/
def generate_occurrence_indices (hash : String → String) (rows : List TxnRow) :
    Except String (List ℕ) :=
  if (dup_pairs hash rows).Nodup then
    .ok (rows.enum.map (occ_of hash rows))
  else
    .error "FATAL: Indistinguishable duplicate transactions detected."

/-- Left-pad a numeral with zeros (the 03d / 04d format specifiers). -/
def padZeros (width : ℕ) (n : ℕ) : String :=
  let s := toString n
  if s.length < width then String.mk (List.replicate (width - s.length) '0') ++ s else s

/-- _mk_txn_id: digest of base_key | OCCnnn; missing YearMonth or SourceFile
is an error (the Amount canonicalization cannot fail here because amounts are
embedded as integers). -/
def mk_txn_id (hash : String → String) (r : TxnRow) (occurrence_index : ℕ) :
    Except String String :=
  if r.year_month = "" then .error "Missing YearMonth for Txn_ID."
  else if r.source = "" then .error "Missing SourceFile for Txn_ID."
  else .ok (hash (base_key r ++ "|OCC" ++ padZeros 3 occurrence_index))

/-- Apply a fallible function to every element, propagating the first
exception (the pandas row-wise apply under raised ValueError). -/
def mapE (f : α → Except ε β) : List α → Except ε (List β)
  | [] => .ok []
  | a :: l =>
    match f a with
    | .error e => .error e
    | .ok b =>
      match mapE f l with
      | .error e => .error e
      | .ok bs => .ok (b :: bs)

/-- Occurrence-index generation followed by Txn_ID generation for every row,
in original row order. -/
def assign_txn_ids (hash : String → String) (rows : List TxnRow) :
    Except String (List (TxnRow × String)) :=
  match generate_occurrence_indices hash rows with
  | .error e => .error e
  | .ok occs =>
    mapE (fun p =>
      match mk_txn_id hash p.1 p.2 with
      | .error e => .error e
      | .ok id => .ok (p.1, id)) (rows.zip occs)

/-- The identity-assignment tail of clean_statement_csv: assign ids, then the
three hardening assertions (no blank ids; distinct-id count equals row count;
no duplicated ids).  The second and third checks test the same condition by
construction; both are kept, as in the source. -/
def clean_statement_ids (hash : String → String) (rows : List TxnRow) :
    Except String (List (TxnRow × String)) :=
  match assign_txn_ids hash rows with
  | .error e => .error e
  | .ok out =>
    if out.any (fun p => p.2 = "") then
      .error "FATAL: Blank Txn_IDs detected"
    else if ¬ (out.map fun p => p.2).Nodup then
      .error "FATAL: Txn_ID uniqueness violation."
    else if ¬ (out.map fun p => p.2).Nodup then
      .error "CRITICAL: Txn_ID collision after occurrence index assignment"
    else .ok out

/-- ensure_txn_id from auto_classify_transactions.py: rows arrive with a
possibly blank Txn_ID column; ids are generated only for the blank rows (via
the occurrence indices of all rows), then the same three assertions run.
Blankness here is tested after strip. -/
def ensure_txn_id (hash : String → String) (rows : List (TxnRow × String)) :
    Except String (List (TxnRow × String)) :=
  let fill : Except String (List (TxnRow × String)) :=
    if rows.any (fun p => pyStrip p.2 = "") then
      match generate_occurrence_indices hash (rows.map fun p => p.1) with
      | .error e => .error e
      | .ok occs =>
        mapE (fun pr =>
          if pyStrip pr.1.2 = "" then
            match mk_txn_id hash pr.1.1 pr.2 with
            | .error e => .error e
            | .ok id => .ok (pr.1.1, id)
          else .ok pr.1) (rows.zip occs)
    else .ok rows
  match fill with
  | .error e => .error e
  | .ok out =>
    if out.any (fun p => pyStrip p.2 = "") then
      .error "FATAL: Blank Txn_IDs detected"
    else if ¬ (out.map fun p => p.2).Nodup then
      .error "FATAL: Txn_ID uniqueness violation."
    else if ¬ (out.map fun p => p.2).Nodup then
      .error "CRITICAL: Txn_ID collision after occurrence index assignment"
    else .ok out

/-! ## Overrides (auto_classify_transactions.py)

Workbook cells are Option String (none is a pandas NA); pandas astype(str)
renders NA as the string nan, which load_overrides then treats like any other
text, so the conversion is embedded explicitly. -/

/-- pandas Series.astype(str) on one cell. -/
def astypeStr : Option String → String
  | none => "nan"
  | some s => s

/-- The accepted truthy spellings of the boolean workbook columns. -/
def TRUTHY : List String := ["TRUE", "1", "YES", "Y"]

/-- _has_value / _override_has_value: a cell carries a value unless it is NA,
blank after strip, or the (blank) sentinel. -/
def has_value : Option String → Bool
  | none => false
  | some cell =>
    let s := pyStrip cell
    !(s = "" || pyUpper s = "(BLANK)" || pyUpper s = "BLANK")

/-- One raw row of the Overrides sheet, as read by read_excel. -/
structure RawOverride where
  txn_id : Option String
  cashflow_statement : Option String
  econ_l1 : Option String
  econ_l2 : Option String
  mgr_l1 : Option String
  mgr_l2 : Option String
  baseline_eligible : Option String
  override_reason : Option String
  enabled : Option String
deriving Repr, DecidableEq

/-- One loaded override row (after the boolean parsing, filtering, audit-id
assignment and managerial derivation of load_overrides). -/
structure OverrideRow where
  txn_id : String
  cashflow_statement : Option String
  econ_l1 : Option String
  econ_l2 : Option String
  mgr_l1 : Option String
  mgr_l2 : Option String
  baseline_eligible : Option Bool
  override_reason : Option String
  enabled : Bool
  override_id : String
deriving Repr, DecidableEq

/-- Enabled column: astype(str).str.upper().isin TRUTHY. -/
def parse_enabled (cell : Option String) : Bool :=
  TRUTHY.contains (pyUpper (astypeStr cell))

/-- _parse_bool_or_na for Baseline_Eligible. -/
def parse_bool_or_na (cell : Option String) : Option Bool :=
  match cell with
  | none => none
  | some s =>
    if pyStrip s = "" then none
    else some (TRUTHY.contains (pyUpper (pyStrip s)))

/-- Normalization of one economic/managerial text cell at load time:
str(x).strip().upper() when the cell has a value, otherwise unchanged. -/
def norm_cell (cell : Option String) : Option String :=
  if has_value cell then some (pyUpper (pyStrip (cell.getD ""))) else cell

/-- The managerial derivation applied inside the loaded override table: when
both economic fields are provided and a managerial field is missing, fill it
from MANAGERIAL_DERIVE_MAP (default: the economic pair itself); a managerial
cell without a value becomes NA. -/
def derive_override_mgr (o : OverrideRow) : OverrideRow :=
  let econ_ready := has_value o.econ_l1 && has_value o.econ_l2
  let l1_missing := !has_value o.mgr_l1
  let l2_missing := !has_value o.mgr_l2
  if econ_ready && (l1_missing || l2_missing) then
    let key := (pyUpper (pyStrip (o.econ_l1.getD "")), pyUpper (pyStrip (o.econ_l2.getD "")))
    let d := mgrDeriveGet key key
    { o with
      mgr_l1 := some (if l1_missing then d.1 else pyUpper (pyStrip (o.mgr_l1.getD ""))),
      mgr_l2 := some (if l2_missing then d.2 else pyUpper (pyStrip (o.mgr_l2.getD ""))) }
  else
    { o with
      mgr_l1 := if has_value o.mgr_l1 then some (pyUpper (pyStrip (o.mgr_l1.getD ""))) else none,
      mgr_l2 := if has_value o.mgr_l2 then some (pyUpper (pyStrip (o.mgr_l2.getD ""))) else none }

/-- The per-row column parsing of load_overrides: strip/stringify the
identifier and parse the two boolean columns. -/
def parse_raw_override (r : RawOverride) : OverrideRow :=
  { txn_id := pyStrip (astypeStr r.txn_id),
    cashflow_statement := r.cashflow_statement,
    econ_l1 := r.econ_l1, econ_l2 := r.econ_l2,
    mgr_l1 := r.mgr_l1, mgr_l2 := r.mgr_l2,
    baseline_eligible := parse_bool_or_na r.baseline_eligible,
    override_reason := r.override_reason,
    enabled := parse_enabled r.enabled,
    override_id := "" }

/-- The load-time normalization of the four economic/managerial text cells. -/
def normalize_override (o : OverrideRow) : OverrideRow :=
  { o with econ_l1 := norm_cell o.econ_l1, econ_l2 := norm_cell o.econ_l2,
           mgr_l1 := norm_cell o.mgr_l1, mgr_l2 := norm_cell o.mgr_l2 }

/-- The f-string audit id OVR_nnnn stamped by row position. -/
def stamp_override (e : ℕ × OverrideRow) : OverrideRow :=
  { e.2 with override_id := "OVR_" ++ padZeros 4 (e.1 + 1) }

/-- load_overrides, given the sheet rows: parse booleans, drop blank-id rows,
keep enabled rows, stamp audit ids, reject duplicate ids, normalize the
economic/managerial text cells, then derive managerial fields. -/
def load_overrides (raw : List RawOverride) : Except String (List OverrideRow) :=
  let parsed : List OverrideRow := raw.map parse_raw_override
  let kept := (parsed.filter fun o => o.txn_id.length > 0).filter fun o => o.enabled
  let stamped : List OverrideRow := kept.enum.map stamp_override
  if (stamped.map fun o : OverrideRow => o.txn_id).Nodup then
    .ok (stamped.map fun o => derive_override_mgr (normalize_override o))
  else
    .error "Duplicate Txn_ID in overrides.xlsx (must be unique)"

/-- One classified ledger row, restricted to the columns apply_overrides
reads or writes. -/
structure LedgerRow where
  txn_id : String
  cashflow_statement : String
  econ_l1 : String
  econ_l2 : String
  mgr_l1 : String
  mgr_l2 : String
  baseline_eligible : Bool
  override_reason : String
  was_overridden : Bool
  override_id_applied : String
deriving Repr, DecidableEq

/-- startswith on Strings. -/
def strStarts (s pre : String) : Bool := leadMatch pre.data s.data

/-! The row loop of apply_overrides applies each override column in
OVERRIDE_FIELDS order to the matched ledger row; one step per column, each
skipping blank/sentinel cells. -/

def ov_apply_cs (o : OverrideRow) (row : LedgerRow) : LedgerRow :=
  if has_value o.cashflow_statement then
    { row with cashflow_statement := pyUpper (pyStrip (o.cashflow_statement.getD "")) }
  else row

def ov_apply_el1 (o : OverrideRow) (row : LedgerRow) : LedgerRow :=
  if has_value o.econ_l1 then
    { row with econ_l1 := pyUpper (pyStrip (o.econ_l1.getD "")) }
  else row

def ov_apply_el2 (o : OverrideRow) (row : LedgerRow) : LedgerRow :=
  if has_value o.econ_l2 then
    { row with econ_l2 := pyUpper (pyStrip (o.econ_l2.getD "")) }
  else row

def ov_apply_ml1 (o : OverrideRow) (row : LedgerRow) : LedgerRow :=
  if has_value o.mgr_l1 then
    { row with mgr_l1 := pyUpper (pyStrip (o.mgr_l1.getD "")) }
  else row

def ov_apply_ml2 (o : OverrideRow) (row : LedgerRow) : LedgerRow :=
  if has_value o.mgr_l2 then
    { row with mgr_l2 := pyUpper (pyStrip (o.mgr_l2.getD "")) }
  else row

def ov_apply_be (o : OverrideRow) (row : LedgerRow) : LedgerRow :=
  match o.baseline_eligible with
  | none => row
  | some b => { row with baseline_eligible := b }

def ov_apply_reason (o : OverrideRow) (row : LedgerRow) : LedgerRow :=
  if has_value o.override_reason then
    { row with override_reason :=
        if pyStrip row.override_reason ≠ "" then
          pyStrip row.override_reason ++ " | " ++ pyStrip (o.override_reason.getD "")
        else pyStrip (o.override_reason.getD "") }
  else row

/-- The body of the apply_overrides row loop for a matched override: apply the
non-blank override fields in OVERRIDE_FIELDS order, then re-derive the
managerial fields (credit-card prefix special case, then the transfer
short-circuit) for those not explicitly provided, and stamp the audit
columns. -/
def apply_override_row (row : LedgerRow) (o : OverrideRow) : LedgerRow :=
  let mgr_l1_provided := has_value o.mgr_l1
  let mgr_l2_provided := has_value o.mgr_l2
  let row :=
    ov_apply_reason o (ov_apply_be o (ov_apply_ml2 o (ov_apply_ml1 o
      (ov_apply_el2 o (ov_apply_el1 o (ov_apply_cs o row))))))
  let econ_l1 := pyUpper (pyStrip row.econ_l1)
  let econ_l2 := pyUpper (pyStrip row.econ_l2)
  let cashflow_stmt := pyUpper (pyStrip row.cashflow_statement)
  let derived :=
    if econ_l1 = "DEBT_SERVICE" ∧ strStarts econ_l2 "CREDIT_CARD_SETTLEMENT" then
      ("LIFESTYLE", "CREDIT_CARD_SPEND_PROXY")
    else mgrDeriveGet (econ_l1, econ_l2) (econ_l1, econ_l2)
  let derived := if cashflow_stmt = "TRANSFER" then ("TRANSFER", "INTERNAL_TRANSFER") else derived
  let row := if mgr_l1_provided then row else { row with mgr_l1 := derived.1 }
  let row := if mgr_l2_provided then row else { row with mgr_l2 := derived.2 }
  { row with was_overridden := true, override_id_applied := pyStrip o.override_id }

/-- apply_overrides: initialize the audit columns, then rewrite each row whose
stripped Txn_ID matches a loaded override (the early return on an empty
override table coincides with the lookup finding nothing). -/
def apply_overrides (df : List LedgerRow) (ov : List OverrideRow) : List LedgerRow :=
  df.map fun row =>
    let row := { row with was_overridden := false, override_id_applied := "" }
    let t := pyStrip row.txn_id
    if t = "" then row
    else
      match ov.find? fun o => o.txn_id = t with
      | none => row
      | some o => apply_override_row row o

/-! ## Amount parsing and net amount derivation (clean_bank_statement.py) -/

/-- The characters _parse_amount keeps after stripping noise. -/
def keepAmountChar (c : Char) : Bool :=
  c.isDigit || c = '.' || c = '-' || c = '(' || c = ')'

/-- Python float() on the character residue [0-9.\-()]: optional minus, then
digits with at most one dot and at least one digit; everything else fails. -/
def pyFloatDigits : List Char → Option ℚ
  | cs =>
    let (neg, cs) := match cs with
      | '-' :: t => (true, t)
      | t => (false, t)
    let intPart := cs.takeWhile Char.isDigit
    let rest := cs.drop intPart.length
    let parsed : Option ℚ :=
      match rest with
      | [] => if intPart.isEmpty then none else some (digitsToNat intPart)
      | '.' :: frac =>
        if frac.all Char.isDigit ∧ ¬(intPart.isEmpty ∧ frac.isEmpty) then
          some ((digitsToNat intPart : ℚ) + (digitsToNat frac : ℚ) / ((10 : ℚ) ^ frac.length))
        else none
      | _ => none
    parsed.map fun q => if neg then -q else q
where
  digitsToNat (ds : List Char) : ℕ :=
    ds.foldl (fun acc c => acc * 10 + (c.toNat - '0'.toNat)) 0

/-- _parse_amount: strip, reject empty, drop commas, keep [0-9.\-()], rewrite
a fully parenthesized number to its negation, then float(); None models NaN. -/
def parse_amount (x : String) : Option ℚ :=
  let s := pyStrip x
  if s = "" then none
  else
    let s := (s.data.filter fun c => c ≠ ',').filter keepAmountChar
    let s :=
      match s with
      | '(' :: t =>
        if !t.isEmpty && t.getLast? = some ')' then
          let inner := t.dropLast
          let body := match inner with
            | '-' :: u => u
            | u => u
          let digits := body.takeWhile Char.isDigit
          let tailOk : Bool :=
            match body.drop digits.length with
            | [] => true
            | '.' :: frac => !frac.isEmpty && frac.all Char.isDigit
            | _ => false
          if !digits.isEmpty && tailOk then '-' :: inner
          else '(' :: t
        else '(' :: t
      | t => t
    pyFloatDigits s

/-- The merged-row Amount derivation of clean_statement_csv:
DepositsNum.fillna(0) - WithdrawalsNum.fillna(0) over the parsed columns. -/
def merged_amount (withdrawals_raw deposits_raw : String) : ℚ :=
  (parse_amount deposits_raw).getD 0 - (parse_amount withdrawals_raw).getD 0

/-! ## Derived quantities and concrete fixtures used by the theorems -/

/-- The content-determined occurrence index: one plus the number of rows of
the same base key whose tie-break sort key is strictly smaller.  The theorems
show the sorted-cumcount computation equals this whenever the duplicate check
passes, which is what makes identifier assignment order independent. -/
def occ_formula (hash : String → String) (rows : List TxnRow) (r : TxnRow) : ℕ :=
  rows.countP (fun s => decide (base_key s = base_key r ∧ sort_key hash s < sort_key hash r)) + 1

/-- The content-determined Txn_ID of a row within a table. -/
def txn_id_of (hash : String → String) (rows : List TxnRow) (r : TxnRow) : String :=
  hash (base_key r ++ "|OCC" ++ padZeros 3 (occ_formula hash rows r))

/-- Fixture rows for the order-independence witness. -/
def c1_rowA : TxnRow :=
  { date := "2024-01-01", year_month := "2024-01", amount_cents := 120000,
    desc := "FAST TRANSFER WEILUN", source := "TEST.CSV",
    balance := some 500000, withdrawals := some 0, deposits := some 120000 }

def c1_rowB : TxnRow :=
  { date := "2024-01-02", year_month := "2024-01", amount_cents := -5000,
    desc := "MISC EXPENSE", source := "TEST.CSV",
    balance := some 495000, withdrawals := some 5000, deposits := some 0 }

/-- Fixture row for the duplicate hard-stop witness. -/
def c2_row : TxnRow :=
  { date := "2024-02-03", year_month := "2024-02", amount_cents := -7500,
    desc := "COFFEE", source := "FEB.CSV",
    balance := some 100000, withdrawals := some 7500, deposits := none }

/-- Fixture row for the bijection witness. -/
def c3_row : TxnRow :=
  { date := "2024-03-05", year_month := "2024-03", amount_cents := 4200,
    desc := "INTEREST CREDIT", source := "MAR.CSV",
    balance := none, withdrawals := none, deposits := some 4200 }

/-- Fixture ledger row for the override claims. -/
def c4_ledger_row : LedgerRow :=
  { txn_id := "T1", cashflow_statement := "OPERATING", econ_l1 := "LIFESTYLE",
    econ_l2 := "DISCRETIONARY", mgr_l1 := "LIFESTYLE", mgr_l2 := "DISCRETIONARY",
    baseline_eligible := false, override_reason := "", was_overridden := false,
    override_id_applied := "" }

/-- A sheet row overriding Cashflow_Statement to TRANSFER while also supplying
managerial values: the claimed short-circuit does not override these. -/
def c4_sheet_row : RawOverride :=
  { txn_id := some "T1", cashflow_statement := some "TRANSFER",
    econ_l1 := none, econ_l2 := none,
    mgr_l1 := some "LIFESTYLE", mgr_l2 := some "DISCRETIONARY",
    baseline_eligible := none, override_reason := none,
    enabled := some "TRUE" }

/-- The loaded form of c4_sheet_row. -/
def c4_loaded_row : OverrideRow :=
  { txn_id := "T1", cashflow_statement := some "TRANSFER",
    econ_l1 := none, econ_l2 := none,
    mgr_l1 := some "LIFESTYLE", mgr_l2 := some "DISCRETIONARY",
    baseline_eligible := none, override_reason := none,
    enabled := true, override_id := "OVR_0001" }

/-- A loaded override row used by the amended-claim witness: Cashflow set to
TRANSFER and no managerial value supplied. -/
def c4_loaded_row2 : OverrideRow :=
  { txn_id := "T1", cashflow_statement := some "TRANSFER",
    econ_l1 := none, econ_l2 := none,
    mgr_l1 := none, mgr_l2 := none,
    baseline_eligible := none, override_reason := none,
    enabled := true, override_id := "OVR_0001" }

/-- A loaded override row used by the amended-claim witness: Cashflow set to
TRANSFER with Managerial_Purpose_L1 supplied but Managerial_Purpose_L2 not,
exercising the mixed case where only the unsupplied field is forced. -/
def c4_loaded_row3 : OverrideRow :=
  { txn_id := "T1", cashflow_statement := some "TRANSFER",
    econ_l1 := none, econ_l2 := none,
    mgr_l1 := some "LIFESTYLE", mgr_l2 := none,
    baseline_eligible := none, override_reason := none,
    enabled := true, override_id := "OVR_0001" }

/-- Sheet rows for the override-load-contract witness: one enabled row, one
disabled row, one with a blank identifier. -/
def c7_sheet_rows : List RawOverride :=
  [ { txn_id := some "AAA", cashflow_statement := none, econ_l1 := none, econ_l2 := none,
      mgr_l1 := none, mgr_l2 := none, baseline_eligible := some "1",
      override_reason := some "keep", enabled := some "yes" },
    { txn_id := some "BBB", cashflow_statement := none, econ_l1 := none, econ_l2 := none,
      mgr_l1 := none, mgr_l2 := none, baseline_eligible := none,
      override_reason := none, enabled := some "no" },
    { txn_id := some "   ", cashflow_statement := none, econ_l1 := none, econ_l2 := none,
      mgr_l1 := none, mgr_l2 := none, baseline_eligible := none,
      override_reason := none, enabled := some "TRUE" } ]

/-- Recover the (base key, fingerprint) pair from a tie-break sort key; the
sort key determines both, which is how the duplicate check makes the sort
keys of a base-key group pairwise distinct. -/
def sk_pair (k : SortKey) : String × String :=
  (⟨(ofLex k).1⟩, ⟨(ofLex (ofLex (ofLex (ofLex (ofLex k).2).2).2).2).2⟩)

/-! # Theorems -/

/-! ## Classifier claims -/

/-- At amount zero every amount-gated rule is off, so the chain collapses to
the three description-only rules and the final fallback. -/
theorem first_rule_at_zero (d : String) :
    first_rule d 0 =
      (if has_any d BALANCE_PATTERNS then .r00
       else if has_any d TRUST_BANK_INTERNAL_PATTERNS then .r03
       else if (has_any d TRANSFER_PATTERNS ∨ infer_bank_rail d = "FAST" ∨
                 infer_bank_rail d = "PAYNOW" ∨ infer_bank_rail d = "GIRO") ∧
               contains_any_token d SELF_ENTITIES then .r13
       else .r16) := by
  simp only [first_rule, lt_self_iff_false, false_and, and_false, if_false]

/-- C5 counterexample: for description BILL PAYMENT GIRO CITI with a negative
amount, the credit-card settlement rule fires and hardcodes bank_rail CARD,
while infer_bank_rail of the normalized description is GIRO; flipping the
amount sign flips bank_rail, so bank_rail depends on the amount and on the
fired rule, contradicting the claim. -/
theorem c5_counterexample :
    (classify_row "BILL PAYMENT GIRO CITI" (-100)).bank_rail = "CARD" ∧
    infer_bank_rail (pynorm "BILL PAYMENT GIRO CITI") = "GIRO" ∧
    (classify_row "BILL PAYMENT GIRO CITI" 100).bank_rail = "GIRO" :=
  ⟨by decide, by decide, by decide⟩

/-- C5 (amended): the bank_rail of every classification result equals
infer_bank_rail of the normalized description, except that the credit-card
settlement rule (R12) hardcodes CARD and the ATM withdrawal rule (R21)
hardcodes ATM. -/
theorem c5_bank_rail_amended (desc : String) (amount : ℚ) :
    (classify_row desc amount).bank_rail =
      (if (classify_row desc amount).rule_id = "R12_CC_SETTLEMENT" then "CARD"
       else if (classify_row desc amount).rule_id = "R21_ATM_WITHDRAWAL" then "ATM"
       else infer_bank_rail (pynorm desc)) := by
  unfold classify_row
  cases first_rule (pynorm desc) amount <;> simp [rule_result]

/-- C6: the literal priority examples: SALARY PAYMENT ACME CORP at +5000 is
SALARY and baseline eligible; CASH WITHDRAWAL-ATM 79608204 at -100 gets rail
ATM and purpose CASH_WITHDRAWAL; Cheque Charges at -0.75 is OPERATING
BANK_FEES; BALANCE B/F is a SUMMARY excluded from baseline at every amount. -/
theorem c6_priority_examples :
    ((classify_row "SALARY PAYMENT ACME CORP" 5000).econ_l2 = "SALARY" ∧
      (classify_row "SALARY PAYMENT ACME CORP" 5000).baseline_eligible = true) ∧
    ((classify_row "CASH WITHDRAWAL-ATM 79608204" (-100)).bank_rail = "ATM" ∧
      (classify_row "CASH WITHDRAWAL-ATM 79608204" (-100)).econ_l2 = "CASH_WITHDRAWAL") ∧
    ((classify_row "Cheque Charges" (-0.75)).cashflow_statement = "OPERATING" ∧
      (classify_row "Cheque Charges" (-0.75)).econ_l2 = "BANK_FEES") ∧
    (∀ amount : ℚ, (classify_row "BALANCE B/F" amount).record_type = "SUMMARY" ∧
      (classify_row "BALANCE B/F" amount).baseline_eligible = false) := by
  have hq : (⟨-3, 4, by decide, by decide⟩ : ℚ) = -0.75 := by
    rw [← Rat.num_div_den (⟨-3, 4, by decide, by decide⟩ : ℚ)]
    norm_num
  exact ⟨⟨by decide, by decide⟩, ⟨by decide, by decide⟩,
    ⟨by rw [← hq]; decide, by rw [← hq]; decide⟩, fun _ => ⟨rfl, rfl⟩⟩

/-- C8: a result classified with economic purpose INCOME is never managerially
LIFESTYLE (every INCOME rule derives managerial INCOME), and the lookup table
maps every INCOME key to an INCOME managerial pair. -/
theorem c8_income_never_lifestyle (desc : String) (amount : ℚ) :
    ((classify_row desc amount).econ_l1 = "INCOME" →
      (classify_row desc amount).managerial_l1 ≠ "LIFESTYLE") ∧
    (∀ p ∈ MANAGERIAL_DERIVE_MAP, p.1.1 = "INCOME" → p.2.1 = "INCOME") := by
  constructor
  · unfold classify_row
    cases first_rule (pynorm desc) amount <;> simp [rule_result]
  · decide

/-- Witness for c8_income_never_lifestyle at a concrete salary row. -/
theorem c8_income_never_lifestyle_witness :
    (classify_row "SALARY PAYMENT ACME CORP" 5000).managerial_l1 ≠ "LIFESTYLE" :=
  (c8_income_never_lifestyle "SALARY PAYMENT ACME CORP" 5000).1 (by decide)

/-- C10: the balance-carry-forward, Trust-Bank-internal and self-entity
transfer rules test only the description and so fire at amount zero (with the
two literal examples of the claim), and the zero-amount fallback R16 fires
exactly when none of those three description predicates holds. -/
theorem c10_zero_amount_rules :
    ((classify_row "BALANCE B/F" 0).record_type = "SUMMARY" ∧
     (classify_row "FUNDS TRF TRUST BANK OTHR TRANSFER" 0).cashflow_statement = "TRANSFER") ∧
    (∀ d : String, has_any (pynorm d) BALANCE_PATTERNS →
      (classify_row d 0).rule_id = "R00_BALANCE_BF" ∧ (classify_row d 0).record_type = "SUMMARY") ∧
    (∀ d : String, ¬ has_any (pynorm d) BALANCE_PATTERNS →
      has_any (pynorm d) TRUST_BANK_INTERNAL_PATTERNS →
      (classify_row d 0).rule_id = "R03_TRUST_INTERNAL" ∧
        (classify_row d 0).cashflow_statement = "TRANSFER") ∧
    (∀ d : String, ¬ has_any (pynorm d) BALANCE_PATTERNS →
      ¬ has_any (pynorm d) TRUST_BANK_INTERNAL_PATTERNS →
      (has_any (pynorm d) TRANSFER_PATTERNS ∨ infer_bank_rail (pynorm d) = "FAST" ∨
        infer_bank_rail (pynorm d) = "PAYNOW" ∨ infer_bank_rail (pynorm d) = "GIRO") →
      contains_any_token (pynorm d) SELF_ENTITIES →
      (classify_row d 0).rule_id = "R13_INTERNAL_TRANSFER" ∧
        (classify_row d 0).cashflow_statement = "TRANSFER") ∧
    (∀ d : String, (classify_row d 0).rule_id = "R16_ZERO_ADJ" ↔
      (¬ has_any (pynorm d) BALANCE_PATTERNS ∧
       ¬ has_any (pynorm d) TRUST_BANK_INTERNAL_PATTERNS ∧
       ¬ ((has_any (pynorm d) TRANSFER_PATTERNS ∨ infer_bank_rail (pynorm d) = "FAST" ∨
            infer_bank_rail (pynorm d) = "PAYNOW" ∨ infer_bank_rail (pynorm d) = "GIRO") ∧
          contains_any_token (pynorm d) SELF_ENTITIES))) := by
  refine ⟨⟨by decide, by decide⟩, ?_, ?_, ?_, ?_⟩
  · intro d h
    unfold classify_row
    rw [first_rule_at_zero, if_pos h]
    exact ⟨rfl, rfl⟩
  · intro d h0 h3
    unfold classify_row
    rw [first_rule_at_zero, if_neg h0, if_pos h3]
    exact ⟨rfl, rfl⟩
  · intro d h0 h3 ht hs
    unfold classify_row
    rw [first_rule_at_zero, if_neg h0, if_neg h3, if_pos ⟨ht, hs⟩]
    exact ⟨rfl, rfl⟩
  · intro d
    unfold classify_row
    rw [first_rule_at_zero]
    split_ifs <;> simp_all [rule_result]

/-- Witness for c10_zero_amount_rules: the self-entity transfer rule firing at
amount zero on a concrete description. -/
theorem c10_zero_amount_rules_witness :
    (classify_row "FUNDS TRF WEILUN" 0).rule_id = "R13_INTERNAL_TRANSFER" ∧
    (classify_row "FUNDS TRF WEILUN" 0).cashflow_statement = "TRANSFER" :=
  (c10_zero_amount_rules.2.2.2.1) "FUNDS TRF WEILUN" (by decide) (by decide)
    (Or.inl (by decide)) (by decide)

/-! ## Override claims -/

/-- Load-time normalization and managerial derivation leave the identifier
unchanged. -/
theorem derive_norm_txn_id (o : OverrideRow) :
    (derive_override_mgr (normalize_override o)).txn_id = o.txn_id := by
  unfold derive_override_mgr normalize_override
  dsimp only
  split_ifs <;> rfl

/-- Load-time normalization and managerial derivation leave the enabled flag
unchanged. -/
theorem derive_norm_enabled (o : OverrideRow) :
    (derive_override_mgr (normalize_override o)).enabled = o.enabled := by
  unfold derive_override_mgr normalize_override
  dsimp only
  split_ifs <;> rfl

/-- The identifiers of the stamped table are the stripped identifiers of the
kept (non-blank, enabled) sheet rows. -/
theorem load_overrides_kept_ids (raw : List RawOverride) :
    (((((raw.map parse_raw_override).filter fun o : OverrideRow =>
          o.txn_id.length > 0).filter fun o : OverrideRow => o.enabled).enum.map
        stamp_override).map fun o : OverrideRow => o.txn_id) =
      ((raw.filter fun r =>
          parse_enabled r.enabled && decide ((pyStrip (astypeStr r.txn_id)).length > 0)).map
        fun r => pyStrip (astypeStr r.txn_id)) := by
  rw [List.map_map]
  have h1 : ((fun o : OverrideRow => o.txn_id) ∘ stamp_override) =
      (fun o : OverrideRow => o.txn_id) ∘ Prod.snd := rfl
  rw [h1, ← List.map_map, List.enum_map_snd, List.filter_filter, List.filter_map,
    List.map_map]
  rfl

/-- C7: override load contract.  When load_overrides returns, every returned
row is enabled with a non-blank identifier and the returned identifiers are
pairwise distinct; and whenever an identifier repeats among the kept
(non-blank, enabled) sheet rows, the load aborts with the duplicate error, so
no overrides at all are applied. -/
theorem c7_override_load_contract (raw : List RawOverride) :
    (∀ ov, load_overrides raw = .ok ov →
        (∀ o ∈ ov, o.txn_id ≠ "" ∧ o.enabled = true) ∧
        (ov.map fun o : OverrideRow => o.txn_id).Nodup) ∧
    (¬ ((raw.filter fun r =>
            parse_enabled r.enabled && decide ((pyStrip (astypeStr r.txn_id)).length > 0)).map
          fun r => pyStrip (astypeStr r.txn_id)).Nodup →
      load_overrides raw = .error "Duplicate Txn_ID in overrides.xlsx (must be unique)") := by
  constructor
  · intro ov hov
    unfold load_overrides at hov
    dsimp only at hov
    split_ifs at hov with hnd
    · injection hov with hov
      subst hov
      constructor
      · intro o ho
        rw [List.mem_map] at ho
        obtain ⟨s, hs, rfl⟩ := ho
        rw [List.mem_map] at hs
        obtain ⟨e, he, rfl⟩ := hs
        have h2 := List.snd_mem_of_mem_enumFrom he
        rw [List.mem_filter] at h2
        obtain ⟨h3, hen⟩ := h2
        rw [List.mem_filter] at h3
        obtain ⟨-, hlen⟩ := h3
        constructor
        · rw [derive_norm_txn_id]
          show e.2.txn_id ≠ ""
          intro heq
          rw [heq] at hlen
          simp at hlen
        · rw [derive_norm_enabled]
          exact hen
      · rw [List.map_map]
        have h4 : ∀ s ∈ (((raw.map parse_raw_override).filter fun o : OverrideRow =>
              o.txn_id.length > 0).filter fun o : OverrideRow => o.enabled).enum.map
              stamp_override,
            ((fun o : OverrideRow => o.txn_id) ∘ fun o => derive_override_mgr (normalize_override o)) s =
              (fun o : OverrideRow => o.txn_id) s :=
          fun s _ => derive_norm_txn_id s
        rw [List.map_congr_left h4]
        exact hnd
  · intro hdup
    unfold load_overrides
    dsimp only
    rw [if_neg]
    rw [load_overrides_kept_ids raw]
    exact hdup

/-- Witness for c7_override_load_contract: a sheet with one enabled row, one
disabled row and one blank-identifier row loads to exactly the enabled row,
which is non-blank, enabled, and duplicate-free. -/
theorem c7_override_load_contract_witness :
    ∃ ov, load_overrides c7_sheet_rows = .ok ov ∧
      (∀ o ∈ ov, o.txn_id ≠ "" ∧ o.enabled = true) ∧
      (ov.map fun o : OverrideRow => o.txn_id).Nodup := by
  have heq : load_overrides c7_sheet_rows =
      .ok [{ txn_id := "AAA", cashflow_statement := none, econ_l1 := none, econ_l2 := none,
             mgr_l1 := none, mgr_l2 := none, baseline_eligible := some true,
             override_reason := some "keep", enabled := true, override_id := "OVR_0001" }] := by
    rfl
  exact ⟨_, heq, (c7_override_load_contract c7_sheet_rows).1 _ heq⟩

/-- C4 counterexample: an override row that sets Cashflow_Statement to
TRANSFER while also supplying managerial values loads successfully and leaves
the matched transaction with the supplied managerial values, not
TRANSFER/INTERNAL_TRANSFER, so the short-circuit does not hold regardless of
the other supplied fields. -/
theorem c4_counterexample :
    load_overrides [c4_sheet_row] = .ok [c4_loaded_row] ∧
    (apply_overrides [c4_ledger_row] [c4_loaded_row]).map
        (fun r : LedgerRow => (r.cashflow_statement, r.mgr_l1, r.mgr_l2)) =
      [("TRANSFER", "LIFESTYLE", "DISCRETIONARY")] :=
  ⟨rfl, rfl⟩

/-- Each later field step leaves the Cashflow_Statement column alone. -/
theorem ov_steps_preserve_cs (o : OverrideRow) (r : LedgerRow) :
    (ov_apply_reason o (ov_apply_be o (ov_apply_ml2 o (ov_apply_ml1 o
        (ov_apply_el2 o (ov_apply_el1 o r)))))).cashflow_statement =
      r.cashflow_statement := by
  have h1 : ∀ s : LedgerRow, (ov_apply_el1 o s).cashflow_statement = s.cashflow_statement := by
    intro s; unfold ov_apply_el1; split_ifs <;> rfl
  have h2 : ∀ s : LedgerRow, (ov_apply_el2 o s).cashflow_statement = s.cashflow_statement := by
    intro s; unfold ov_apply_el2; split_ifs <;> rfl
  have h3 : ∀ s : LedgerRow, (ov_apply_ml1 o s).cashflow_statement = s.cashflow_statement := by
    intro s; unfold ov_apply_ml1; split_ifs <;> rfl
  have h4 : ∀ s : LedgerRow, (ov_apply_ml2 o s).cashflow_statement = s.cashflow_statement := by
    intro s; unfold ov_apply_ml2; split_ifs <;> rfl
  have h5 : ∀ s : LedgerRow, (ov_apply_be o s).cashflow_statement = s.cashflow_statement := by
    intro s; unfold ov_apply_be; cases o.baseline_eligible <;> rfl
  have h6 : ∀ s : LedgerRow, (ov_apply_reason o s).cashflow_statement = s.cashflow_statement := by
    intro s; unfold ov_apply_reason; split_ifs <;> rfl
  rw [h6, h5, h4, h3, h2, h1]

/-- The field-loop chain sets Managerial_Purpose_L1 to the stripped-uppercase
supplied value exactly when the override row carries one, and otherwise leaves
the input row value; the other six steps never touch this column. -/
theorem ov_chain_mgr_l1 (o : OverrideRow) (r : LedgerRow) :
    (ov_apply_reason o (ov_apply_be o (ov_apply_ml2 o (ov_apply_ml1 o
        (ov_apply_el2 o (ov_apply_el1 o (ov_apply_cs o r))))))).mgr_l1 =
      (if has_value o.mgr_l1 = true then pyUpper (pyStrip (o.mgr_l1.getD ""))
       else r.mgr_l1) := by
  have h0 : ∀ s : LedgerRow, (ov_apply_cs o s).mgr_l1 = s.mgr_l1 := by
    intro s; unfold ov_apply_cs; split_ifs <;> rfl
  have h1 : ∀ s : LedgerRow, (ov_apply_el1 o s).mgr_l1 = s.mgr_l1 := by
    intro s; unfold ov_apply_el1; split_ifs <;> rfl
  have h2 : ∀ s : LedgerRow, (ov_apply_el2 o s).mgr_l1 = s.mgr_l1 := by
    intro s; unfold ov_apply_el2; split_ifs <;> rfl
  have h3 : ∀ s : LedgerRow, (ov_apply_ml1 o s).mgr_l1 =
      (if has_value o.mgr_l1 = true then pyUpper (pyStrip (o.mgr_l1.getD ""))
       else s.mgr_l1) := by
    intro s; unfold ov_apply_ml1; split_ifs <;> rfl
  have h4 : ∀ s : LedgerRow, (ov_apply_ml2 o s).mgr_l1 = s.mgr_l1 := by
    intro s; unfold ov_apply_ml2; split_ifs <;> rfl
  have h5 : ∀ s : LedgerRow, (ov_apply_be o s).mgr_l1 = s.mgr_l1 := by
    intro s; unfold ov_apply_be; cases o.baseline_eligible <;> rfl
  have h6 : ∀ s : LedgerRow, (ov_apply_reason o s).mgr_l1 = s.mgr_l1 := by
    intro s; unfold ov_apply_reason; split_ifs <;> rfl
  rw [h6, h5, h4, h3, h2, h1, h0]

/-- The field-loop chain sets Managerial_Purpose_L2 to the stripped-uppercase
supplied value exactly when the override row carries one, and otherwise leaves
the input row value; the other six steps never touch this column. -/
theorem ov_chain_mgr_l2 (o : OverrideRow) (r : LedgerRow) :
    (ov_apply_reason o (ov_apply_be o (ov_apply_ml2 o (ov_apply_ml1 o
        (ov_apply_el2 o (ov_apply_el1 o (ov_apply_cs o r))))))).mgr_l2 =
      (if has_value o.mgr_l2 = true then pyUpper (pyStrip (o.mgr_l2.getD ""))
       else r.mgr_l2) := by
  have h0 : ∀ s : LedgerRow, (ov_apply_cs o s).mgr_l2 = s.mgr_l2 := by
    intro s; unfold ov_apply_cs; split_ifs <;> rfl
  have h1 : ∀ s : LedgerRow, (ov_apply_el1 o s).mgr_l2 = s.mgr_l2 := by
    intro s; unfold ov_apply_el1; split_ifs <;> rfl
  have h2 : ∀ s : LedgerRow, (ov_apply_el2 o s).mgr_l2 = s.mgr_l2 := by
    intro s; unfold ov_apply_el2; split_ifs <;> rfl
  have h3 : ∀ s : LedgerRow, (ov_apply_ml1 o s).mgr_l2 = s.mgr_l2 := by
    intro s; unfold ov_apply_ml1; split_ifs <;> rfl
  have h4 : ∀ s : LedgerRow, (ov_apply_ml2 o s).mgr_l2 =
      (if has_value o.mgr_l2 = true then pyUpper (pyStrip (o.mgr_l2.getD ""))
       else s.mgr_l2) := by
    intro s; unfold ov_apply_ml2; split_ifs <;> rfl
  have h5 : ∀ s : LedgerRow, (ov_apply_be o s).mgr_l2 = s.mgr_l2 := by
    intro s; unfold ov_apply_be; cases o.baseline_eligible <;> rfl
  have h6 : ∀ s : LedgerRow, (ov_apply_reason o s).mgr_l2 = s.mgr_l2 := by
    intro s; unfold ov_apply_reason; split_ifs <;> rfl
  rw [h6, h5, h4, h3, h2, h1, h0]

/-- For a matched override that carries Cashflow_Statement TRANSFER, the row
loop forces each managerial field individually: a field the override row
carries a value for keeps the supplied stripped-uppercase value, and a field
it does not carry is forced to TRANSFER (L1) / INTERNAL_TRANSFER (L2). -/
theorem apply_override_row_transfer (row : LedgerRow) (o : OverrideRow)
    (hcs : has_value o.cashflow_statement = true)
    (hv : pyUpper (pyStrip (o.cashflow_statement.getD "")) = "TRANSFER") :
    ((apply_override_row row o).mgr_l1 =
        if has_value o.mgr_l1 = true then pyUpper (pyStrip (o.mgr_l1.getD ""))
        else "TRANSFER") ∧
    ((apply_override_row row o).mgr_l2 =
        if has_value o.mgr_l2 = true then pyUpper (pyStrip (o.mgr_l2.getD ""))
        else "INTERNAL_TRANSFER") := by
  have hT : pyUpper (pyStrip "TRANSFER") = "TRANSFER" := by decide
  have hcs0 : (ov_apply_cs o row).cashflow_statement =
      pyUpper (pyStrip (o.cashflow_statement.getD "")) := by
    unfold ov_apply_cs
    rw [if_pos hcs]
  unfold apply_override_row
  dsimp only
  rw [ov_steps_preserve_cs, hcs0, hv, hT, if_pos rfl]
  constructor
  · cases hb1 : has_value o.mgr_l1 <;> cases hb2 : has_value o.mgr_l2 <;>
      simp [ov_chain_mgr_l1 o row, hb1]
  · cases hb1 : has_value o.mgr_l1 <;> cases hb2 : has_value o.mgr_l2 <;>
      simp [ov_chain_mgr_l2 o row, hb2]

/-- C4 (amended): when the loaded override row matched to a transaction sets
Cashflow_Statement to TRANSFER, applying overrides forces each managerial
purpose field individually: a managerial field the override row does not
carry a value for becomes TRANSFER (L1) / INTERNAL_TRANSFER (L2), while a
managerial field the row does carry keeps its supplied stripped-uppercase
value (as the counterexample shows, so the forcing is not unconditional). -/
theorem c4_transfer_short_circuit_amended (df : List LedgerRow) (ov : List OverrideRow)
    (i : ℕ) (hi : i < df.length) (hi2 : i < (apply_overrides df ov).length)
    (o : OverrideRow)
    (hblank : pyStrip (df.get ⟨i, hi⟩).txn_id ≠ "")
    (hmatch : ov.find? (fun o2 => o2.txn_id = pyStrip (df.get ⟨i, hi⟩).txn_id) = some o)
    (hcs : has_value o.cashflow_statement = true)
    (hv : pyUpper (pyStrip (o.cashflow_statement.getD "")) = "TRANSFER") :
    (((apply_overrides df ov).get ⟨i, hi2⟩).mgr_l1 =
        if has_value o.mgr_l1 = true then pyUpper (pyStrip (o.mgr_l1.getD ""))
        else "TRANSFER") ∧
    (((apply_overrides df ov).get ⟨i, hi2⟩).mgr_l2 =
        if has_value o.mgr_l2 = true then pyUpper (pyStrip (o.mgr_l2.getD ""))
        else "INTERNAL_TRANSFER") := by
  have hg : (apply_overrides df ov).get ⟨i, hi2⟩ =
      apply_override_row
        { df.get ⟨i, hi⟩ with was_overridden := false, override_id_applied := "" } o := by
    unfold apply_overrides
    rw [List.get_map]
    dsimp only
    rw [if_neg hblank, hmatch]
  rw [hg]
  exact apply_override_row_transfer _ o hcs hv

/-- Witness for c4_transfer_short_circuit_amended on a concrete ledger and a
concrete loaded override supplying Managerial_Purpose_L1 but not L2: the
supplied L1 value survives while the unsupplied L2 is forced. -/
theorem c4_transfer_short_circuit_amended_witness :
    ((apply_overrides [c4_ledger_row] [c4_loaded_row3]).get ⟨0, by decide⟩).mgr_l1 =
      "LIFESTYLE" ∧
    ((apply_overrides [c4_ledger_row] [c4_loaded_row3]).get ⟨0, by decide⟩).mgr_l2 =
      "INTERNAL_TRANSFER" := by
  obtain ⟨h1, h2⟩ := c4_transfer_short_circuit_amended [c4_ledger_row] [c4_loaded_row3] 0
    (by decide) (by decide) c4_loaded_row3 (by decide) rfl (by decide) rfl
  rw [if_pos (show has_value c4_loaded_row3.mgr_l1 = true by decide)] at h1
  rw [if_neg (show ¬ has_value c4_loaded_row3.mgr_l2 = true by decide)] at h2
  exact ⟨h1.trans (by decide), h2⟩

/-! ## Net amount derivation -/

/-- C9: the merged Amount is always the parsed Deposits minus the parsed
Withdrawals with an unparsable or absent side treated as zero; in particular
it is a defined rational for every pair of raw strings (merged_amount is a
total function), even when one or both sides fail to parse. -/
theorem c9_net_amount (withdrawals_raw deposits_raw : String) :
    merged_amount withdrawals_raw deposits_raw =
      (parse_amount deposits_raw).getD 0 - (parse_amount withdrawals_raw).getD 0 ∧
    (parse_amount deposits_raw = none → parse_amount withdrawals_raw = none →
      merged_amount withdrawals_raw deposits_raw = 0) ∧
    (∀ qd : ℚ, parse_amount deposits_raw = some qd → parse_amount withdrawals_raw = none →
      merged_amount withdrawals_raw deposits_raw = qd) ∧
    (∀ qw : ℚ, parse_amount withdrawals_raw = some qw → parse_amount deposits_raw = none →
      merged_amount withdrawals_raw deposits_raw = -qw) := by
  refine ⟨rfl, ?_, ?_, ?_⟩
  · intro hd hw
    simp [merged_amount, hd, hw]
  · intro qd hd hw
    simp [merged_amount, hd, hw]
  · intro qw hw hd
    simp [merged_amount, hd, hw]

/-- Witness for c9_net_amount: two unparsable sides still produce the defined
net amount zero. -/
theorem c9_net_amount_witness : merged_amount "abc" "xyz" = 0 :=
  (c9_net_amount "abc" "xyz").2.1 rfl rfl

/-! ## Identity assignment: order independence and duplicate detection -/

/-- The sort key determines the duplicate-check pair. -/
theorem sk_pair_sort_key (hash : String → String) (r : TxnRow) :
    sk_pair (sort_key hash r) = (base_key r, row_fingerprint hash r) := rfl

/-- If the duplicate check passes, the tie-break sort keys of the rows are
pairwise distinct. -/
theorem nodup_sort_keys {hash : String → String} {rows : List TxnRow}
    (hdup : (dup_pairs hash rows).Nodup) : (rows.map (sort_key hash)).Nodup := by
  apply List.Nodup.of_map sk_pair
  have h : (rows.map (sort_key hash)).map sk_pair = dup_pairs hash rows := by
    rw [List.map_map]
    rfl
  rw [h]
  exact hdup

/-- The positioned rows are pairwise distinct. -/
theorem nodup_enum_rows (rows : List TxnRow) : rows.enum.Nodup :=
  List.Nodup.of_map Prod.fst (by rw [List.enum_map_fst]; exact List.nodup_range _)

/-- Under a passing duplicate check, a positioned row is determined by its
content sort key. -/
theorem entry_eq_of_sort_key_eq {hash : String → String} {rows : List TxnRow}
    (hdup : (dup_pairs hash rows).Nodup) :
    ∀ f ∈ rows.enum, ∀ e ∈ rows.enum,
      sort_key hash f.2 = sort_key hash e.2 → f = e := by
  have hnd : (rows.enum.map fun f => sort_key hash f.2).Nodup := by
    have h : (rows.enum.map fun f => sort_key hash f.2) = rows.map (sort_key hash) := by
      have h2 : (fun f : ℕ × TxnRow => sort_key hash f.2) = sort_key hash ∘ Prod.snd := rfl
      rw [h2, ← List.map_map, List.enum_map_snd]
    rw [h]
    exact nodup_sort_keys hdup
  exact fun f hf e he hfe => List.inj_on_of_nodup_map hnd hf he hfe

/-- A strict entry order from a non-strict one when the content keys differ. -/
theorem sort_key_lt_of_entry_le {hash : String → String} {f e : ℕ × TxnRow}
    (hle : entry_le hash f e) (hne : sort_key hash f.2 ≠ sort_key hash e.2) :
    sort_key hash f.2 < sort_key hash e.2 := by
  rcases (Prod.Lex.le_iff _ _).mp hle with hlt | ⟨heq, -⟩
  · exact hlt
  · exact absurd heq hne

/-- A strict content-key order contradicts the reverse entry order. -/
theorem not_entry_le_of_sort_key_lt {hash : String → String} {f e : ℕ × TxnRow}
    (hlt : sort_key hash f.2 < sort_key hash e.2) : ¬ entry_le hash e f := by
  intro hle
  rcases (Prod.Lex.le_iff _ _).mp hle with hlt2 | ⟨heq, -⟩
  · exact absurd (lt_trans hlt hlt2) (lt_irrefl _)
  · dsimp only at heq
    rw [heq] at hlt
    exact lt_irrefl _ hlt

/-- takeWhile of (not equal to e) on a list split around its sole occurrence
of e gives the prefix. -/
theorem takeWhile_ne_middle {α : Type} [DecidableEq α] (l1 l2 : List α) (e : α)
    (h : e ∉ l1) : ((l1 ++ e :: l2).takeWhile fun f => f ≠ e) = l1 := by
  induction l1 with
  | nil => simp [List.takeWhile]
  | cons a t ih =>
    have ha : a ≠ e := fun hae => h (hae ▸ List.mem_cons_self a t)
    have ht : e ∉ t := fun hmem => h (List.mem_cons_of_mem a hmem)
    simp only [List.cons_append, List.takeWhile]
    rw [decide_eq_true ha]
    show a :: List.takeWhile (fun f => decide (f ≠ e)) (t ++ e :: l2) = a :: t
    rw [ih ht]

/-- The core of order independence: when the duplicate check passes, the
occurrence index computed by the stable sort and cumcount equals the
content-determined formula, for every positioned row. -/
theorem occ_of_eq_formula {hash : String → String} {rows : List TxnRow}
    (hdup : (dup_pairs hash rows).Nodup) {e : ℕ × TxnRow} (he : e ∈ rows.enum) :
    occ_of hash rows e = occ_formula hash rows e.2 := by
  have hperm : (sorted_entries hash rows).Perm rows.enum := List.perm_insertionSort _ _
  have hsort : List.Sorted (entry_le hash) (sorted_entries hash rows) :=
    List.sorted_insertionSort _ _
  have hndE : rows.enum.Nodup := nodup_enum_rows rows
  have hndL : (sorted_entries hash rows).Nodup := hperm.nodup_iff.mpr hndE
  have heL : e ∈ sorted_entries hash rows := hperm.mem_iff.mpr he
  obtain ⟨l1, l2, hdec⟩ := List.append_of_mem heL
  have hnd2 := hndL
  rw [hdec, List.nodup_append] at hnd2
  obtain ⟨-, -, hdisj⟩ := hnd2
  have he_l1 : e ∉ l1 := fun hmem => hdisj hmem (List.mem_cons_self e l2)
  have htw : ((sorted_entries hash rows).takeWhile fun f => f ≠ e) = l1 := by
    rw [hdec]
    exact takeWhile_ne_middle l1 l2 e he_l1
  have hpw : List.Pairwise (entry_le hash) (l1 ++ e :: l2) := hdec ▸ hsort
  rw [List.pairwise_append] at hpw
  obtain ⟨-, hpw2, hcross⟩ := hpw
  have hfe : ∀ f ∈ l1, entry_le hash f e := fun f hf =>
    hcross f hf e (List.mem_cons_self e l2)
  have heg : ∀ g ∈ l2, entry_le hash e g := fun g hg => (List.pairwise_cons.mp hpw2).1 g hg
  have hagree : ∀ f ∈ l1,
      (decide (base_key f.2 = base_key e.2) = true ↔
        decide (base_key f.2 = base_key e.2 ∧ sort_key hash f.2 < sort_key hash e.2) = true) := by
    intro f hf
    simp only [decide_eq_true_eq]
    constructor
    · intro hb
      refine ⟨hb, ?_⟩
      have hfE : f ∈ rows.enum := hperm.subset (hdec ▸ List.mem_append_left _ hf)
      have hne : sort_key hash f.2 ≠ sort_key hash e.2 := by
        intro hkeq
        exact he_l1 ((entry_eq_of_sort_key_eq hdup f hfE e he hkeq) ▸ hf)
      exact sort_key_lt_of_entry_le (hfe f hf) hne
    · exact fun h => h.1
  have hzero : ((e :: l2).countP fun f =>
      decide (base_key f.2 = base_key e.2 ∧ sort_key hash f.2 < sort_key hash e.2)) = 0 := by
    rw [List.countP_eq_zero]
    intro f hf
    rcases List.mem_cons.mp hf with rfl | hf2
    · simp only [decide_eq_true_eq, not_and]
      exact fun _ => lt_irrefl _
    · simp only [decide_eq_true_eq, not_and]
      intro _ hlt
      exact not_entry_le_of_sort_key_lt hlt (heg f hf2)
  have hmapcnt :
      rows.countP (fun s => decide (base_key s = base_key e.2 ∧
        sort_key hash s < sort_key hash e.2)) =
      rows.enum.countP (fun f => decide (base_key f.2 = base_key e.2 ∧
        sort_key hash f.2 < sort_key hash e.2)) := by
    conv_lhs => rw [← List.enum_map_snd rows]
    rw [List.countP_map]
    rfl
  unfold occ_of occ_formula
  rw [htw, List.countP_congr hagree, hmapcnt, ← List.Perm.countP_eq _ hperm, hdec,
    List.countP_append, hzero]
/-- mapE succeeds with the pointwise results when every element succeeds. -/
theorem mapE_ok_of_forall {α β ε : Type} {f : α → Except ε β} {g : α → β} :
    ∀ {l : List α}, (∀ a ∈ l, f a = .ok (g a)) → mapE f l = .ok (l.map g) := by
  intro l
  induction l with
  | nil => intro _; rfl
  | cons a t ih =>
    intro h
    have ha := h a (List.mem_cons_self a t)
    have ht := ih fun b hb => h b (List.mem_cons_of_mem a hb)
    unfold mapE
    rw [ha, ht]
    rfl

/-- When mapE succeeds, every element succeeded. -/
theorem mapE_ok_mem {α β ε : Type} {f : α → Except ε β} :
    ∀ {l : List α} {out : List β}, mapE f l = .ok out → ∀ a ∈ l, ∃ b, f a = .ok b := by
  intro l
  induction l with
  | nil => intro out _ a ha; cases ha
  | cons c t ih =>
    intro out h a ha
    unfold mapE at h
    cases hc : f c with
    | error e => rw [hc] at h; cases h
    | ok b =>
      rw [hc] at h
      cases ht : mapE f t with
      | error e => rw [ht] at h; cases h
      | ok bs =>
        rcases List.mem_cons.mp ha with rfl | ha2
        · exact ⟨b, hc⟩
        · exact ih ht a ha2

/-- mapE preserves length. -/
theorem mapE_ok_length {α β ε : Type} {f : α → Except ε β} :
    ∀ {l : List α} {out : List β}, mapE f l = .ok out → out.length = l.length := by
  intro l
  induction l with
  | nil => intro out h; cases h; rfl
  | cons c t ih =>
    intro out h
    unfold mapE at h
    cases hc : f c with
    | error e => rw [hc] at h; cases h
    | ok b =>
      rw [hc] at h
      cases ht : mapE f t with
      | error e => rw [ht] at h; cases h
      | ok bs =>
        rw [ht] at h
        cases h
        simp [ih ht]

/-- Zipping the rows with a function of their positions. -/
theorem zip_enum_map (rows : List TxnRow) (f : ℕ × TxnRow → ℕ) :
    rows.zip (rows.enum.map f) = rows.enum.map fun e => (e.2, f e) := by
  have h := List.zip_map' Prod.snd f rows.enum
  rw [List.enum_map_snd] at h
  exact h

/-- When the duplicate check passes and every row carries a YearMonth and
SourceFile, identifier assignment succeeds and yields, in original order, the
content-determined identifier of each row. -/
theorem assign_txn_ids_eq (hash : String → String) (rows : List TxnRow)
    (hdup : (dup_pairs hash rows).Nodup)
    (hok : ∀ r ∈ rows, r.year_month ≠ "" ∧ r.source ≠ "") :
    assign_txn_ids hash rows = .ok (rows.map fun r => (r, txn_id_of hash rows r)) := by
  unfold assign_txn_ids generate_occurrence_indices
  rw [if_pos hdup]
  dsimp only
  rw [zip_enum_map rows (occ_of hash rows)]
  have hocc : rows.enum.map (fun e => (e.2, occ_of hash rows e)) =
      rows.map fun r => (r, occ_formula hash rows r) := by
    calc rows.enum.map (fun e => (e.2, occ_of hash rows e))
        = rows.enum.map (fun e => (e.2, occ_formula hash rows e.2)) :=
          List.map_congr_left fun e he => by rw [occ_of_eq_formula hdup he]
      _ = rows.map fun r => (r, occ_formula hash rows r) := by
          have h2 : (fun e : ℕ × TxnRow => (e.2, occ_formula hash rows e.2)) =
              (fun r : TxnRow => (r, occ_formula hash rows r)) ∘ Prod.snd := rfl
          rw [h2, ← List.map_map, List.enum_map_snd]
  rw [hocc]
  have happ : ∀ p ∈ rows.map (fun r => (r, occ_formula hash rows r)),
      (fun p : TxnRow × ℕ =>
        match mk_txn_id hash p.1 p.2 with
        | Except.error e => Except.error e
        | Except.ok id => Except.ok (p.1, id)) p =
      Except.ok ((fun p : TxnRow × ℕ => (p.1, txn_id_of hash rows p.1)) p) := by
    intro p hp
    rw [List.mem_map] at hp
    obtain ⟨r, hr, rfl⟩ := hp
    obtain ⟨hym, hsrc⟩ := hok r hr
    dsimp only
    unfold mk_txn_id
    rw [if_neg hym, if_neg hsrc]
    rfl
  rw [mapE_ok_of_forall happ, List.map_map]
  rfl

/-- Inversion: a successful identifier assignment implies the duplicate check
passed and every row carried a YearMonth and SourceFile. -/
theorem assign_txn_ids_ok_inv {hash : String → String} {rows : List TxnRow}
    {out : List (TxnRow × String)} (h : assign_txn_ids hash rows = .ok out) :
    (dup_pairs hash rows).Nodup ∧ ∀ r ∈ rows, r.year_month ≠ "" ∧ r.source ≠ "" := by
  unfold assign_txn_ids generate_occurrence_indices at h
  split_ifs at h with hdup
  refine ⟨hdup, ?_⟩
  dsimp only at h
  rw [zip_enum_map rows (occ_of hash rows)] at h
  intro r hr
  have hex : ∃ e ∈ rows.enum, e.2 = r := by
    conv at hr => rw [← List.enum_map_snd rows]
    rw [List.mem_map] at hr
    exact hr
  obtain ⟨e, he, rfl⟩ := hex
  have hmem : ((fun e : ℕ × TxnRow => (e.2, occ_of hash rows e)) e) ∈
      rows.enum.map fun e => (e.2, occ_of hash rows e) := List.mem_map_of_mem _ he
  obtain ⟨b, hb⟩ := mapE_ok_mem h _ hmem
  dsimp only at hb
  unfold mk_txn_id at hb
  by_cases hym : e.2.year_month = ""
  · rw [if_pos hym] at hb
    cases hb
  · by_cases hsrc : e.2.source = ""
    · rw [if_neg hym, if_pos hsrc] at hb
      cases hb
    · exact ⟨hym, hsrc⟩

/-- A successful identifier assignment covers every row exactly once. -/
theorem assign_txn_ids_length {hash : String → String} {rows : List TxnRow}
    {out : List (TxnRow × String)} (h : assign_txn_ids hash rows = .ok out) :
    out.length = rows.length := by
  unfold assign_txn_ids at h
  cases hg : generate_occurrence_indices hash rows with
  | error e => rw [hg] at h; cases h
  | ok occs =>
    rw [hg] at h
    have hl := mapE_ok_length h
    rw [List.length_zip] at hl
    have hocc : occs.length = rows.length := by
      unfold generate_occurrence_indices at hg
      split_ifs at hg
      injection hg with hg
      rw [← hg]
      simp [List.enum_length]
    rw [hocc, Nat.min_self] at hl
    exact hl
/-- C1: order independence of identity assignment.  For every digest function,
every input table on which identifier assignment completes, and every
permutation of that table, the permuted run also completes and produces the
same multiset of (row content, assigned identifier) pairs (lists equal up to
permutation are exactly lists with equal multisets). -/
theorem c1_identity_order_independence (hash : String → String)
    (rows rows2 : List TxnRow) (hperm : rows2.Perm rows)
    (out : List (TxnRow × String))
    (h : assign_txn_ids hash rows = .ok out) :
    ∃ out2, assign_txn_ids hash rows2 = .ok out2 ∧ out2.Perm out := by
  obtain ⟨hdup, hok⟩ := assign_txn_ids_ok_inv h
  have hdup2 : (dup_pairs hash rows2).Nodup := by
    unfold dup_pairs at hdup ⊢
    exact (hperm.map _).nodup_iff.mpr hdup
  have hok2 : ∀ r ∈ rows2, r.year_month ≠ "" ∧ r.source ≠ "" :=
    fun r hr => hok r (hperm.mem_iff.mp hr)
  have heq2 := assign_txn_ids_eq hash rows2 hdup2 hok2
  have heq1 := assign_txn_ids_eq hash rows hdup hok
  rw [heq1] at h
  injection h with h
  refine ⟨_, heq2, ?_⟩
  rw [← h]
  have hfun : ∀ r ∈ rows2, (r, txn_id_of hash rows2 r) = (r, txn_id_of hash rows r) := by
    intro r _
    unfold txn_id_of occ_formula
    rw [List.Perm.countP_eq _ hperm]
  rw [List.map_congr_left hfun]
  exact hperm.map _

/-- Witness for c1_identity_order_independence: swapping two concrete rows
still succeeds and yields the same pairs up to permutation. -/
theorem c1_identity_order_independence_witness :
    ∃ out2, assign_txn_ids (fun s => s) [c1_rowB, c1_rowA] = .ok out2 ∧
      out2.Perm
        [(c1_rowA, "2024-01-01|2024-01|120000|FAST TRANSFER WEILUN|TEST.CSV|OCC001"),
         (c1_rowB, "2024-01-02|2024-01|-5000|MISC EXPENSE|TEST.CSV|OCC001")] :=
  c1_identity_order_independence (fun s => s) [c1_rowA, c1_rowB] [c1_rowB, c1_rowA]
    (by decide) _ rfl

/-- C2: duplicate hard-stop.  Two rows at distinct positions that agree on
both the canonical base key and the fingerprint content make occurrence-index
generation fail with the fatal duplicate error, so identifier assignment
never returns identifiers for such an input. -/
theorem c2_duplicate_hard_stop (hash : String → String) (rows : List TxnRow)
    (i j : ℕ) (hi : i < rows.length) (hj : j < rows.length) (hij : i ≠ j)
    (hbase : base_key (rows.get ⟨i, hi⟩) = base_key (rows.get ⟨j, hj⟩))
    (hfp : fingerprint_key (rows.get ⟨i, hi⟩) = fingerprint_key (rows.get ⟨j, hj⟩)) :
    generate_occurrence_indices hash rows =
      .error "FATAL: Indistinguishable duplicate transactions detected." ∧
    ∀ out, assign_txn_ids hash rows ≠ .ok out := by
  have hnodup : ¬ (dup_pairs hash rows).Nodup := by
    intro hnd
    have hinj := List.nodup_iff_injective_get.mp hnd
    have hlen : (dup_pairs hash rows).length = rows.length := List.length_map _ _
    have h1 : (dup_pairs hash rows).get ⟨i, by rw [hlen]; exact hi⟩ =
        (dup_pairs hash rows).get ⟨j, by rw [hlen]; exact hj⟩ := by
      unfold dup_pairs row_fingerprint
      rw [List.get_map, List.get_map]
      rw [hbase, hfp]
    have h2 := hinj h1
    have h3 : i = j := congrArg Fin.val h2
    exact hij h3
  constructor
  · unfold generate_occurrence_indices
    rw [if_neg hnodup]
  · intro out hout
    obtain ⟨hdup, -⟩ := assign_txn_ids_ok_inv hout
    exact hnodup hdup

/-- Witness for c2_duplicate_hard_stop: ingesting the same concrete row twice
aborts occurrence-index generation. -/
theorem c2_duplicate_hard_stop_witness :
    generate_occurrence_indices (fun s => s) [c2_row, c2_row] =
      .error "FATAL: Indistinguishable duplicate transactions detected." ∧
    ∀ out, assign_txn_ids (fun s => s) [c2_row, c2_row] ≠ .ok out :=
  c2_duplicate_hard_stop (fun s => s) [c2_row, c2_row] 0 1 (by decide) (by decide)
    (by decide) rfl rfl

/-- C3: identifier bijection invariant.  Whenever the identity-assignment tail
of clean_statement_csv, or ensure_txn_id, returns normally, every output row
carries a non-blank Txn_ID, the identifiers are pairwise distinct, and the
output has exactly one identifier per input row; any violation is caught by
the hardening checks, which abort instead of returning. -/
theorem c3_identifier_bijection (hash : String → String) :
    (∀ (rows : List TxnRow) (out : List (TxnRow × String)),
        clean_statement_ids hash rows = .ok out →
        (∀ p ∈ out, p.2 ≠ "") ∧ (out.map fun p : TxnRow × String => p.2).Nodup ∧
          out.length = rows.length) ∧
    (∀ (pairs out : List (TxnRow × String)),
        ensure_txn_id hash pairs = .ok out →
        (∀ p ∈ out, pyStrip p.2 ≠ "") ∧ (out.map fun p : TxnRow × String => p.2).Nodup ∧
          out.length = pairs.length) := by
  constructor
  · intro rows out h
    unfold clean_statement_ids at h
    cases ha : assign_txn_ids hash rows with
    | error e => rw [ha] at h; cases h
    | ok l =>
      rw [ha] at h
      dsimp only at h
      split_ifs at h with h1 h2
      injection h with h
      subst h
      rw [List.any_eq_true] at h1
      push_neg at h1
      refine ⟨?_, h2, assign_txn_ids_length ha⟩
      intro p hp
      have := h1 p hp
      simpa using this
  · intro pairs out h
    unfold ensure_txn_id at h
    dsimp only at h
    cases hf : (if pairs.any (fun p => pyStrip p.2 = "") then
        match generate_occurrence_indices hash (pairs.map fun p => p.1) with
        | Except.error e => Except.error e
        | Except.ok occs =>
          mapE (fun pr =>
            if pyStrip pr.1.2 = "" then
              match mk_txn_id hash pr.1.1 pr.2 with
              | Except.error e => Except.error e
              | Except.ok id => Except.ok (pr.1.1, id)
            else Except.ok pr.1) (pairs.zip occs)
      else Except.ok pairs : Except String (List (TxnRow × String))) with
    | error e => rw [hf] at h; cases h
    | ok l =>
      rw [hf] at h
      dsimp only at h
      split_ifs at h with h1 h2
      injection h with h
      subst h
      rw [List.any_eq_true] at h1
      push_neg at h1
      have hlen : l.length = pairs.length := by
        by_cases hmiss : pairs.any (fun p => pyStrip p.2 = "")
        · rw [if_pos hmiss] at hf
          cases hg : generate_occurrence_indices hash (pairs.map fun p => p.1) with
          | error e => rw [hg] at hf; cases hf
          | ok occs =>
            rw [hg] at hf
            have hl := mapE_ok_length hf
            rw [List.length_zip] at hl
            have hocc : occs.length = pairs.length := by
              unfold generate_occurrence_indices at hg
              split_ifs at hg
              injection hg with hg
              rw [← hg]
              simp [List.enum_length]
            rw [hocc, Nat.min_self] at hl
            exact hl
        · rw [if_neg hmiss] at hf
          injection hf with hf
          rw [hf]
      refine ⟨?_, h2, hlen⟩
      intro p hp
      have := h1 p hp
      simpa using this

/-- Witness for c3_identifier_bijection on a concrete one-row table. -/
theorem c3_identifier_bijection_witness :
    (∀ p ∈ [(c3_row, "2024-03-05|2024-03|4200|INTEREST CREDIT|MAR.CSV|OCC001")],
        (p : TxnRow × String).2 ≠ "") ∧
    ([(c3_row, "2024-03-05|2024-03|4200|INTEREST CREDIT|MAR.CSV|OCC001")].map
        fun p : TxnRow × String => p.2).Nodup ∧
    ([(c3_row, "2024-03-05|2024-03|4200|INTEREST CREDIT|MAR.CSV|OCC001")] :
        List (TxnRow × String)).length = ([c3_row] : List TxnRow).length :=
  (c3_identifier_bijection (fun s => s)).1 [c3_row]
    [(c3_row, "2024-03-05|2024-03|4200|INTEREST CREDIT|MAR.CSV|OCC001")] rfl
end CFA
